import Mathlib

/-!
Shallow embedding of the HelixCFG rule-based evaluation and reporting core
(domain model, rule registry, compatibility rules, balance heuristics,
recommendation generator and report aggregator), together with theorems
checking the specification's statements against this embedding.

JavaScript numbers are modelled by `ℚ`; a possibly-`undefined` numeric or
string value (from an untyped `(x as any).field` access) is modelled by
`Option ℚ` / `Option String`, with comparisons that are false on `none`
(matching `undefined` comparison semantics) and equality that is true on
`none = none` (matching `undefined === undefined`).
-/

namespace HelixCFG

/-- ComponentType from `model/types`. -/
inductive ComponentType
  | cpu | gpu | motherboard | ram | storage | cooler | pcCase | psu
deriving DecidableEq, Repr

/-- Currency from `model/types`. -/
inductive Currency
  | uah | usd
deriving DecidableEq, Repr

/-- Target from `model/types`. -/
inductive Target
  | gaming | work | mixed
deriving DecidableEq, Repr

/-- Severity from `model/types`. -/
inductive Severity
  | error | warning | info
deriving DecidableEq, Repr

/-- StorageType values `'SSD' | 'HDD'`. -/
inductive StorageType
  | ssd | hdd
deriving DecidableEq, Repr

structure CpuSpecs where
  socket : String
  cores : ℚ
  threads : ℚ
  baseClock : ℚ
  boostClock : ℚ
  tdpW : ℚ
  integratedGraphics : Option Bool := none
deriving DecidableEq, Repr

structure GpuSpecs where
  vramGB : ℚ
  interface_ : String
  lengthMm : ℚ
  widthMm : ℚ
  heightMm : ℚ
  tdpW : ℚ
deriving DecidableEq, Repr

structure MotherboardSpecs where
  socket : String
  formFactor : String
  ramSlots : ℚ
  ramType : String
  maxRamGB : ℚ
  chipset : String
  pcieSlots : ℚ
deriving DecidableEq, Repr

structure RamSpecs where
  ramType : String
  speed : ℚ
  capacityGB : ℚ
  sticks : ℚ
deriving DecidableEq, Repr

structure StorageSpecs where
  storageType : StorageType
  capacityGB : ℚ
  interface_ : String
deriving DecidableEq, Repr

structure CoolerSpecs where
  coolerType : String
  socketCompatibility : List String
  tdpW : ℚ
deriving DecidableEq, Repr

structure CaseSpecs where
  formFactorCompatibility : List String
  maxGpuLengthMm : ℚ
  maxCpuCoolerHeightMm : ℚ
deriving DecidableEq, Repr

structure PsuSpecs where
  wattage : ℚ
  efficiency : String
  modular : Bool
deriving DecidableEq, Repr

/-- The tagged union `ComponentSpecs`; the constructor is the `type` tag. -/
inductive ComponentSpecs
  | cpu (s : CpuSpecs)
  | gpu (s : GpuSpecs)
  | motherboard (s : MotherboardSpecs)
  | ram (s : RamSpecs)
  | storage (s : StorageSpecs)
  | cooler (s : CoolerSpecs)
  | pcCase (s : CaseSpecs)
  | psu (s : PsuSpecs)
deriving DecidableEq, Repr

structure Dimensions where
  lengthMm : ℚ
  widthMm : ℚ
  heightMm : ℚ
deriving DecidableEq, Repr

/-- `Component`: note that the `type` field is carried separately from the
`specs` tag, exactly as in the source, where the two can in principle
disagree. -/
structure Component where
  id : String
  type : ComponentType
  brand : String
  model : String
  specs : ComponentSpecs
  dimensions : Option Dimensions := none
  tags : List String := []
deriving DecidableEq, Repr

structure BuildMeta where
  target : Target
  budget : Option ℚ := none
deriving DecidableEq, Repr

/-- `Build`: singular slots are `Option String` (TS `string | undefined`);
`ram` and `storage` are id lists. -/
structure Build where
  cpu : Option String := none
  gpu : Option String := none
  motherboard : Option String := none
  cooler : Option String := none
  pcCase : Option String := none
  psu : Option String := none
  ram : List String := []
  storage : List String := []
  meta : BuildMeta
deriving DecidableEq, Repr

inductive PriceSource
  | average | manual
deriving DecidableEq, Repr

structure Price where
  componentId : String
  value : ℚ
  currency : Currency
  source : PriceSource
  updatedAt : String
deriving DecidableEq, Repr

structure RuleResult where
  code : String
  severity : Severity
  message : String
  reason : String
  affectedIds : List String
deriving DecidableEq, Repr

/-- `Recommendation`; `replaceId` is `Option String` because at runtime the
source can place `undefined` there (`affectedIds.find` miss, `build.ram[0]`
on an empty list), `some ""` encodes the empty-string "addition" marker. -/
structure Recommendation where
  reasonCode : String
  message : String
  replaceId : Option String
  alternatives : List String
  expectedEffect : String
deriving DecidableEq, Repr

structure LineItem where
  componentId : String
  quantity : Nat
  unitPrice : ℚ
  total : ℚ
  currency : Currency
deriving DecidableEq, Repr

structure Fitment where
  componentId : String
  position : String
  conflicts : List String
deriving DecidableEq, Repr

structure BuildReport where
  totalPrice : ℚ
  lineItems : List LineItem
  errors : List RuleResult
  warnings : List RuleResult
  recommendations : List Recommendation
  summary : String
  fitment : List Fitment
deriving DecidableEq, Repr

/-! ### JavaScript value helpers -/

/-- Truthiness of an optional string slot: `undefined` and `""` are falsy. -/
def truthy : Option String → Option String
  | some s => if s = "" then none else some s
  | none => none

/-- `a < b` on possibly-`undefined` numbers: false if either is `undefined`. -/
def jsLt : Option ℚ → Option ℚ → Bool
  | some a, some b => a < b
  | _, _ => false

/-- `a > b` on possibly-`undefined` numbers. -/
def jsGt : Option ℚ → Option ℚ → Bool
  | some a, some b => a > b
  | _, _ => false

/-- `a >= b` on possibly-`undefined` numbers. -/
def jsGe : Option ℚ → Option ℚ → Bool
  | some a, some b => a ≥ b
  | _, _ => false

/-- `a <= b` on possibly-`undefined` numbers. -/
def jsLe : Option ℚ → Option ℚ → Bool
  | some a, some b => a ≤ b
  | _, _ => false

/-- Addition where `undefined` poisons the result (NaN). -/
def jsAdd : Option ℚ → Option ℚ → Option ℚ
  | some a, some b => some (a + b)
  | _, _ => none

/-- Multiplication by a constant, propagating `undefined`/NaN. -/
def jsMul (a : Option ℚ) (k : ℚ) : Option ℚ :=
  a.map (· * k)

/-- `===` on possibly-`undefined` strings (`undefined === undefined` holds). -/
def jsStrEq (a b : Option String) : Bool :=
  a = b

/-- `!==` on possibly-`undefined` strings. -/
def jsStrNe (a b : Option String) : Bool :=
  !(jsStrEq a b)

/-- `list.includes(x)` where `x` may be `undefined`. -/
def jsIncludes (l : List String) : Option String → Bool
  | some s => l.contains s
  | none => false

/-! ### Untyped `(specs as any).field` accessors -/

def ComponentSpecs.socketA : ComponentSpecs → Option String
  | .cpu s => some s.socket
  | .motherboard s => some s.socket
  | _ => none

def ComponentSpecs.ramTypeA : ComponentSpecs → Option String
  | .motherboard s => some s.ramType
  | .ram s => some s.ramType
  | _ => none

def ComponentSpecs.formFactorA : ComponentSpecs → Option String
  | .motherboard s => some s.formFactor
  | _ => none

def ComponentSpecs.formFactorCompatibilityA : ComponentSpecs → Option (List String)
  | .pcCase s => some s.formFactorCompatibility
  | _ => none

def ComponentSpecs.lengthMmA : ComponentSpecs → Option ℚ
  | .gpu s => some s.lengthMm
  | _ => none

def ComponentSpecs.maxGpuLengthMmA : ComponentSpecs → Option ℚ
  | .pcCase s => some s.maxGpuLengthMm
  | _ => none

def ComponentSpecs.tdpWA : ComponentSpecs → Option ℚ
  | .cpu s => some s.tdpW
  | .gpu s => some s.tdpW
  | .cooler s => some s.tdpW
  | _ => none

def ComponentSpecs.wattageA : ComponentSpecs → Option ℚ
  | .psu s => some s.wattage
  | _ => none

def ComponentSpecs.ramSlotsA : ComponentSpecs → Option ℚ
  | .motherboard s => some s.ramSlots
  | _ => none

def ComponentSpecs.coresA : ComponentSpecs → Option ℚ
  | .cpu s => some s.cores
  | _ => none

def ComponentSpecs.vramGBA : ComponentSpecs → Option ℚ
  | .gpu s => some s.vramGB
  | _ => none

def ComponentSpecs.capacityGBA : ComponentSpecs → Option ℚ
  | .ram s => some s.capacityGB
  | .storage s => some s.capacityGB
  | _ => none

def ComponentSpecs.socketCompatibilityA : ComponentSpecs → Option (List String)
  | .cooler s => some s.socketCompatibility
  | _ => none

/-- `(specs as any).storageType === 'SSD'`. -/
def ComponentSpecs.isSSDSpec : ComponentSpecs → Bool
  | .storage s => s.storageType = .ssd
  | _ => false

/-! ### Untyped slot resolution (`build.x ? components.find(...) || null : null`). -/

def resolveSlot (oid : Option String) (components : List Component) : Option Component :=
  match truthy oid with
  | none => none
  | some id => components.find? (fun c => c.id = id)

/-- `ids.map(id => components.find(c => c.id === id)).filter(Boolean)`. -/
def resolveList (ids : List String) (components : List Component) : List Component :=
  ids.filterMap (fun id => components.find? (fun c => c.id = id))

/-! ### Type guards (`utils/typeGuards`): each getter returns the component
paired with its narrowed specs, `none` when the slot is unfilled, the id
does not resolve, or the specs tag fails the guard. -/

def getCPU (build : Build) (components : List Component) : Option (Component × CpuSpecs) :=
  match truthy build.cpu with
  | none => none
  | some id =>
    match components.find? (fun c => c.id = id) with
    | none => none
    | some c => match c.specs with
      | .cpu s => some (c, s)
      | _ => none

def getGPU (build : Build) (components : List Component) : Option (Component × GpuSpecs) :=
  match truthy build.gpu with
  | none => none
  | some id =>
    match components.find? (fun c => c.id = id) with
    | none => none
    | some c => match c.specs with
      | .gpu s => some (c, s)
      | _ => none

def getMotherboard (build : Build) (components : List Component) :
    Option (Component × MotherboardSpecs) :=
  match truthy build.motherboard with
  | none => none
  | some id =>
    match components.find? (fun c => c.id = id) with
    | none => none
    | some c => match c.specs with
      | .motherboard s => some (c, s)
      | _ => none

def getRAM (build : Build) (components : List Component) : List (Component × RamSpecs) :=
  build.ram.filterMap (fun id =>
    match components.find? (fun c => c.id = id) with
    | none => none
    | some c => match c.specs with
      | .ram s => some (c, s)
      | _ => none)

def getStorage (build : Build) (components : List Component) :
    List (Component × StorageSpecs) :=
  build.storage.filterMap (fun id =>
    match components.find? (fun c => c.id = id) with
    | none => none
    | some c => match c.specs with
      | .storage s => some (c, s)
      | _ => none)

def getCooler (build : Build) (components : List Component) :
    Option (Component × CoolerSpecs) :=
  match truthy build.cooler with
  | none => none
  | some id =>
    match components.find? (fun c => c.id = id) with
    | none => none
    | some c => match c.specs with
      | .cooler s => some (c, s)
      | _ => none

def getCase (build : Build) (components : List Component) :
    Option (Component × CaseSpecs) :=
  match truthy build.pcCase with
  | none => none
  | some id =>
    match components.find? (fun c => c.id = id) with
    | none => none
    | some c => match c.specs with
      | .pcCase s => some (c, s)
      | _ => none

def getPSU (build : Build) (components : List Component) :
    Option (Component × PsuSpecs) :=
  match truthy build.psu with
  | none => none
  | some id =>
    match components.find? (fun c => c.id = id) with
    | none => none
    | some c => match c.specs with
      | .psu s => some (c, s)
      | _ => none

/-- Deterministic rendering of a number into message text (the model of JS
number-to-string interpolation; inputs of interest are integers). -/
def numStr (q : ℚ) : String :=
  if q.den = 1 then toString q.num else toString q.num ++ "/" ++ toString q.den

inductive RuleCategory
  | compatibility | balance | optimization
deriving DecidableEq, Repr

/-- `CompatibilityRule` from `engines/ruleEngine`. -/
structure CompatibilityRule where
  id : String
  name : String
  check : Build → List Component → Option RuleResult
  priority : Int
  category : RuleCategory
  enabled : Bool

/-- `Map.set` semantics of `RuleEngine.register`: overwrite in place by id,
else append; insertion order of a surviving id is its first registration. -/
def registerRule (rules : List CompatibilityRule) (r : CompatibilityRule) :
    List CompatibilityRule :=
  if rules.any (fun x => x.id = r.id) then
    rules.map (fun x => if x.id = r.id then r else x)
  else rules ++ [r]

/-- Insert an element into a list, before the first element of priority ≤
its own (so equal-priority elements already present stay in front: stable
descending insertion, the behaviour of the stable `Array.prototype.sort`
with comparator `(a, b) => b.priority - a.priority`). -/
def insertByPrioDesc {α : Type} (prio : α → Int) (r : α) : List α → List α
  | [] => [r]
  | x :: xs =>
    if prio x ≤ prio r then r :: x :: xs
    else x :: insertByPrioDesc prio r xs

/-- Stable sort by descending priority. -/
def sortByPrioDesc {α : Type} (prio : α → Int) : List α → List α
  | [] => []
  | x :: xs => insertByPrioDesc prio x (sortByPrioDesc prio xs)

/-- Stable descending sort specialised to `CompatibilityRule`. -/
def sortByPriorityDesc (rules : List CompatibilityRule) : List CompatibilityRule :=
  sortByPrioDesc (fun r => r.priority) rules

/-- `RuleEngine.execute`: filter to enabled rules, stable-sort by descending
priority, run every check, keep the non-null results. -/
def RuleEngine.execute (rules : List CompatibilityRule) (build : Build)
    (components : List Component) : List RuleResult :=
  ((sortByPriorityDesc (rules.filter (fun r => r.enabled))).map
      (fun r => r.check build components)).filterMap id

/-- `calculateEstimatedWatt` from the rules module (typed arguments, as the
rules pass type-guarded values). -/
def calculateEstimatedWatt (cpu : Option (Component × CpuSpecs))
    (gpu : Option (Component × GpuSpecs)) (rams : List (Component × RamSpecs))
    (storages : List (Component × StorageSpecs)) : ℚ :=
  50 + (match cpu with | some c => c.2.tdpW | none => 0)
     + (match gpu with | some g => g.2.tdpW | none => 0)
     + (rams.length : ℚ) * 10 + (storages.length : ℚ) * 5

def socketCompatibilityRule : CompatibilityRule where
  id := "cpu-socket-match"
  name := "CPU Socket Compatibility"
  check := fun build components =>
    match getCPU build components, getMotherboard build components with
    | some cpu, some motherboard =>
      if cpu.2.socket ≠ motherboard.2.socket then
        some { code := "cpu-socket-mismatch"
               severity := .error
               message := "CPU socket " ++ cpu.2.socket ++ " ≠ MB socket " ++
                 motherboard.2.socket
               reason := "Physical incompatibility - CPU and motherboard must have compatible sockets"
               affectedIds := [cpu.1.id, motherboard.1.id] }
      else none
    | _, _ => none
  priority := 100
  category := .compatibility
  enabled := true

def ramTypeCompatibilityRule : CompatibilityRule where
  id := "ram-type-match"
  name := "RAM Type Compatibility"
  check := fun build components =>
    match getMotherboard build components, getRAM build components with
    | some motherboard, rams =>
      if rams.length = 0 then none
      else
        let incompatibleRams := rams.filter (fun r => r.2.ramType ≠ motherboard.2.ramType)
        if incompatibleRams.length > 0 then
          some { code := "ram-type-mismatch"
                 severity := .error
                 message := "RAM type incompatible with motherboard DDR type " ++
                   motherboard.2.ramType
                 reason := "RAM must be compatible with motherboard DDR generation"
                 affectedIds := motherboard.1.id :: incompatibleRams.map (fun r => r.1.id) }
        else none
    | none, _ => none
  priority := 95
  category := .compatibility
  enabled := true

def formFactorCompatibilityRule : CompatibilityRule where
  id := "form-factor-match"
  name := "Motherboard Form Factor Compatibility"
  check := fun build components =>
    match getMotherboard build components, getCase build components with
    | some motherboard, some case_ =>
      if ¬ case_.2.formFactorCompatibility.contains motherboard.2.formFactor then
        some { code := "form-factor-incompatible"
               severity := .error
               message := "Motherboard form factor " ++ motherboard.2.formFactor ++
                 " not supported by case"
               reason := "Case must support the motherboard form factor"
               affectedIds := [motherboard.1.id, case_.1.id] }
      else none
    | _, _ => none
  priority := 90
  category := .compatibility
  enabled := true

def gpuLengthCompatibilityRule : CompatibilityRule where
  id := "gpu-length-fit"
  name := "GPU Length Compatibility"
  check := fun build components =>
    match getGPU build components, getCase build components with
    | some gpu, some case_ =>
      if gpu.2.lengthMm > case_.2.maxGpuLengthMm then
        some { code := "gpu-length-exceeds"
               severity := .error
               message := "GPU length " ++ numStr gpu.2.lengthMm ++ "mm exceeds case max " ++
                 numStr case_.2.maxGpuLengthMm ++ "mm"
               reason := "GPU must fit within the case dimensions"
               affectedIds := [gpu.1.id, case_.1.id] }
      else none
    | _, _ => none
  priority := 85
  category := .compatibility
  enabled := true

def psuWattageRule : CompatibilityRule where
  id := "psu-wattage-check"
  name := "PSU Wattage Check"
  check := fun build components =>
    let cpu := getCPU build components
    let gpu := getGPU build components
    let rams := getRAM build components
    let storages := getStorage build components
    let psu := getPSU build components
    if cpu = none ∧ gpu = none ∧ rams.length = 0 ∧ storages.length = 0 then none
    else
      let estimatedWatt := calculateEstimatedWatt cpu gpu rams storages
      let required := estimatedWatt * 1.25
      match psu with
      | none => none
      | some p =>
        if p.2.wattage < required then
          some { code := "psu-insufficient"
                 severity := .error
                 message := "PSU " ++ numStr p.2.wattage ++ "W insufficient for estimated " ++
                   numStr estimatedWatt ++ "W system"
                 reason := "PSU must provide at least 125% of estimated system power"
                 affectedIds := [p.1.id] }
        else if p.2.wattage < estimatedWatt * 1.5 then
          some { code := "psu-close"
                 severity := .warning
                 message := "PSU " ++ numStr p.2.wattage ++ "W is close to estimated " ++
                   numStr estimatedWatt ++ "W system"
                 reason := "Consider higher wattage PSU for stability"
                 affectedIds := [p.1.id] }
        else none
  priority := 80
  category := .compatibility
  enabled := true

def ramSlotsRule : CompatibilityRule where
  id := "ram-slots-check"
  name := "RAM Slots Check"
  check := fun build components =>
    match getMotherboard build components, getRAM build components with
    | some motherboard, rams =>
      if rams.length = 0 then none
      else if (rams.length : ℚ) > motherboard.2.ramSlots then
        some { code := "ram-slots-exceed"
               severity := .error
               message := "Too many RAM sticks (" ++ toString rams.length ++
                 ") for motherboard slots (" ++ numStr motherboard.2.ramSlots ++ ")"
               reason := "Motherboard has limited RAM slots"
               affectedIds := motherboard.1.id :: rams.map (fun r => r.1.id) }
      else none
    | none, _ => none
  priority := 75
  category := .compatibility
  enabled := true

def coolerCompatibilityRule : CompatibilityRule where
  id := "cooler-socket-match"
  name := "Cooler Socket Compatibility"
  check := fun build components =>
    match getCPU build components, getCooler build components with
    | some cpu, some cooler =>
      if ¬ cooler.2.socketCompatibility.contains cpu.2.socket then
        some { code := "cooler-incompatible"
               severity := .error
               message := "Cooler not compatible with CPU socket " ++ cpu.2.socket
               reason := "Cooler must support the CPU socket"
               affectedIds := [cooler.1.id, cpu.1.id] }
      else none
    | _, _ => none
  priority := 70
  category := .compatibility
  enabled := true

/-- The registry contents of `engines/compatibility` after the seven
`register` calls, in registration order. -/
def registeredRules : List CompatibilityRule :=
  [socketCompatibilityRule, ramTypeCompatibilityRule, formFactorCompatibilityRule,
   gpuLengthCompatibilityRule, psuWattageRule, ramSlotsRule, coolerCompatibilityRule]

/-- `checkCompatibility` from `engines/compatibility` (the registry-based
implementation). -/
def checkCompatibility (build : Build) (components : List Component) : List RuleResult :=
  RuleEngine.execute registeredRules build components

/-- Rendering of a possibly-`undefined` (NaN-producing) number in messages. -/
def numStrU : Option ℚ → String
  | some q => numStr q
  | none => "NaN"

/-- Rendering of a possibly-`undefined` string in messages. -/
def strU : Option String → String
  | some s => s
  | none => "undefined"

def Target.str : Target → String
  | .gaming => "gaming"
  | .work => "work"
  | .mixed => "mixed"

/-- `components.find(c => c.id === oid)` with no truthiness gate
(`c.id === undefined` is false for every component). -/
def findById (components : List Component) : Option String → Option Component
  | none => none
  | some id => components.find? (fun c => c.id = id)

/-- The untyped `calculateEstimatedWatt` of the balance module and the
monolithic compatibility module: `+= (x.specs as any).tdpW` poisons the sum
(NaN) when a resolved cpu/gpu has no `tdpW` field. -/
def calculateEstimatedWattU (cpu gpu : Option Component)
    (rams storages : List Component) : Option ℚ :=
  let watt : Option ℚ := some 50
  let watt := match cpu with
    | some c => jsAdd watt c.specs.tdpWA
    | none => watt
  let watt := match gpu with
    | some g => jsAdd watt g.specs.tdpWA
    | none => watt
  jsAdd (jsAdd watt (some ((rams.length : ℚ) * 10))) (some ((storages.length : ℚ) * 5))

/-! `checkBalance` from the balance module: resolution is untyped
(no type guards), field reads go through the `as any` accessors. Its four
warning blocks are named segments, in source order. -/

def balanceCpuGpuSeg (target : Target) (cpu gpu : Option Component) :
    List RuleResult :=
  match cpu, gpu with
  | some c, some g =>
    if target = .gaming ∧ jsLt c.specs.coresA (some 6) ∧
        jsGe g.specs.vramGBA (some 8) then
      [{ code := "cpu-gpu-mismatch"
         severity := .warning
         message := "CPU may bottleneck high-end GPU in gaming"
         reason := "Low core count CPU can limit GPU performance in games"
         affectedIds := [c.id, g.id] }]
    else []
  | _, _ => []

def balanceRamSeg (target : Target) (rams : List Component) : List RuleResult :=
  let totalRamGB : Option ℚ :=
    rams.foldl (fun acc r => jsAdd acc r.specs.capacityGBA) (some 0)
  if target = .gaming ∧ jsLt totalRamGB (some 16) then
    [{ code := "insufficient-ram-gaming"
       severity := .warning
       message := "Only " ++ numStrU totalRamGB ++ "GB RAM for gaming, recommend at least 16GB"
       reason := "Gaming workloads benefit from more RAM"
       affectedIds := rams.map (fun r => r.id) }]
  else if target = .work ∧ jsLt totalRamGB (some 32) then
    [{ code := "insufficient-ram-work"
       severity := .warning
       message := "Only " ++ numStrU totalRamGB ++ "GB RAM for work, recommend at least 32GB"
       reason := "Workstation tasks require more RAM"
       affectedIds := rams.map (fun r => r.id) }]
  else []

def balanceSsdSeg (storages : List Component) : List RuleResult :=
  let hasSSD := storages.any (fun s => s.specs.isSSDSpec)
  if ¬ hasSSD then
    [{ code := "no-ssd"
       severity := .warning
       message := "No SSD selected, system may be slow"
       reason := "SSD provides much faster boot and load times"
       affectedIds := storages.map (fun s => s.id) }]
  else []

def balancePsuSeg (cpu gpu : Option Component) (rams storages : List Component)
    (psu : Option Component) : List RuleResult :=
  if cpu.isSome ∨ gpu.isSome ∨ rams.length > 0 ∨ storages.length > 0 then
    let estimatedWatt := calculateEstimatedWattU cpu gpu rams storages
    match psu with
    | some p =>
      if jsGt p.specs.wattageA (jsMul estimatedWatt 2.2) then
        [{ code := "psu-oversized"
           severity := .warning
           message := "PSU " ++ numStrU p.specs.wattageA ++ "W is oversized for " ++
             numStrU estimatedWatt ++ "W system"
           reason := "Oversized PSU may waste energy and cost more"
           affectedIds := [p.id] }]
      else []
    | none => []
  else []

def checkBalance (build : Build) (components : List Component) : List RuleResult :=
  let cpu := resolveSlot build.cpu components
  let gpu := resolveSlot build.gpu components
  let psu := resolveSlot build.psu components
  let rams := resolveList build.ram components
  let storages := resolveList build.storage components
  let target := build.meta.target
  balanceCpuGpuSeg target cpu gpu ++ balanceRamSeg target rams ++
    balanceSsdSeg storages ++ balancePsuSeg cpu gpu rams storages psu

/-- `list.includes(x)` where the list itself may be `undefined`: throws
(`TypeError`) on `undefined`. -/
def jsIncludesU : Option (List String) → Option String → Except Unit Bool
  | some l, x => .ok (jsIncludes l x)
  | none, _ => .error ()

/-- `Array.prototype.filter` with a callback that can throw: evaluates the
predicate left to right, the first throw aborts. -/
def exceptFilter {α : Type} (p : α → Except Unit Bool) : List α → Except Unit (List α)
  | [] => .ok []
  | x :: xs => do
    let b ← p x
    let rest ← exceptFilter p xs
    pure (if b then x :: rest else rest)

def recommendCpuSocketFix (build : Build) (components : List Component)
    (issue : RuleResult) : List Recommendation :=
  match findById components build.cpu, findById components build.motherboard with
  | some cpu, some motherboard =>
    let cpuSocket := cpu.specs.socketA
    let mbSocket := motherboard.specs.socketA
    let matchingMbs := (components.filter
      (fun c => c.type = .motherboard ∧ jsStrEq c.specs.socketA cpuSocket)).take 3
    let recs1 : List Recommendation :=
      if matchingMbs.length > 0 then
        [{ reasonCode := issue.code
           message := "Replace motherboard with one supporting " ++ strU cpuSocket ++ " socket"
           replaceId := some motherboard.id
           alternatives := matchingMbs.map (fun m => m.id)
           expectedEffect := "Fixes socket compatibility" }]
      else []
    let matchingCpus := (components.filter
      (fun c => c.type = .cpu ∧ jsStrEq c.specs.socketA mbSocket)).take 3
    let recs2 : List Recommendation :=
      if matchingCpus.length > 0 then
        [{ reasonCode := issue.code
           message := "Replace CPU with one for " ++ strU mbSocket ++ " socket"
           replaceId := some cpu.id
           alternatives := matchingCpus.map (fun c => c.id)
           expectedEffect := "Fixes socket compatibility" }]
      else []
    recs1 ++ recs2
  | _, _ => []

def recommendRamTypeFix (build : Build) (components : List Component)
    (issue : RuleResult) : List Recommendation :=
  match findById components build.motherboard with
  | none => []
  | some motherboard =>
    let mbRamType := motherboard.specs.ramTypeA
    let matchingRams := (components.filter
      (fun c => c.type = .ram ∧ jsStrEq c.specs.ramTypeA mbRamType)).take 3
    if matchingRams.length > 0 then
      [{ reasonCode := issue.code
         message := "Replace RAM with " ++ strU mbRamType ++ " compatible sticks"
         replaceId := issue.affectedIds.find? (fun id =>
           match components.find? (fun c => c.id = id) with
           | some c => c.type = .ram
           | none => false)
         alternatives := matchingRams.map (fun r => r.id)
         expectedEffect := "Fixes RAM compatibility" }]
    else []

def recommendFormFactorFix (build : Build) (components : List Component)
    (issue : RuleResult) : Except Unit (List Recommendation) :=
  match findById components build.motherboard, findById components build.pcCase with
  | some motherboard, some case_ => do
    let mbFormFactor := motherboard.specs.formFactorA
    let filtered ← exceptFilter (fun c =>
      if c.type = .pcCase then jsIncludesU c.specs.formFactorCompatibilityA mbFormFactor
      else .ok false) components
    let matchingCases := filtered.take 3
    pure (if matchingCases.length > 0 then
      [{ reasonCode := issue.code
         message := "Replace case with one supporting " ++ strU mbFormFactor ++ " motherboards"
         replaceId := some case_.id
         alternatives := matchingCases.map (fun c => c.id)
         expectedEffect := "Fixes form factor compatibility" }]
    else [])
  | _, _ => .ok []

def recommendGpuLengthFix (build : Build) (components : List Component)
    (issue : RuleResult) : List Recommendation :=
  match findById components build.gpu, findById components build.pcCase with
  | some gpu, some case_ =>
    let caseMax := case_.specs.maxGpuLengthMmA
    let shorterGpus := (components.filter
      (fun c => c.type = .gpu ∧ jsLe c.specs.lengthMmA caseMax)).take 3
    let biggerCases := (components.filter
      (fun c => c.type = .pcCase ∧ jsGe c.specs.maxGpuLengthMmA gpu.specs.lengthMmA)).take 3
    let recs1 : List Recommendation :=
      if shorterGpus.length > 0 then
        [{ reasonCode := issue.code
           message := "Replace GPU with shorter model"
           replaceId := some gpu.id
           alternatives := shorterGpus.map (fun g => g.id)
           expectedEffect := "Fits in current case" }]
      else []
    let recs2 : List Recommendation :=
      if biggerCases.length > 0 then
        [{ reasonCode := issue.code
           message := "Replace case with larger model"
           replaceId := some case_.id
           alternatives := biggerCases.map (fun c => c.id)
           expectedEffect := "Accommodates current GPU" }]
      else []
    recs1 ++ recs2
  | _, _ => []

def recommendPsuUpgrade (build : Build) (components : List Component)
    (issue : RuleResult) : List Recommendation :=
  match findById components build.psu with
  | none => []
  | some psu =>
    let currentWatt := psu.specs.wattageA
    let higherPsus := (components.filter
      (fun c => c.type = .psu ∧ jsGt c.specs.wattageA currentWatt)).take 3
    if higherPsus.length > 0 then
      [{ reasonCode := issue.code
         message := "Upgrade to higher wattage PSU"
         replaceId := some psu.id
         alternatives := higherPsus.map (fun p => p.id)
         expectedEffect := "Provides sufficient power" }]
    else []

def recommendCpuGpuBalance (build : Build) (components : List Component)
    (issue : RuleResult) : List Recommendation :=
  match findById components build.cpu, findById components build.gpu with
  | some cpu, some gpu =>
    let betterCpus := (components.filter
      (fun c => c.type = .cpu ∧ jsGe c.specs.coresA (some 6))).take 3
    let weakerGpus := (components.filter
      (fun c => c.type = .gpu ∧ jsLt c.specs.vramGBA (some 8))).take 3
    let recs1 : List Recommendation :=
      if betterCpus.length > 0 then
        [{ reasonCode := issue.code
           message := "Upgrade CPU for better balance"
           replaceId := some cpu.id
           alternatives := betterCpus.map (fun c => c.id)
           expectedEffect := "Reduces GPU bottleneck" }]
      else []
    let recs2 : List Recommendation :=
      if weakerGpus.length > 0 then
        [{ reasonCode := issue.code
           message := "Downgrade GPU for better balance"
           replaceId := some gpu.id
           alternatives := weakerGpus.map (fun g => g.id)
           expectedEffect := "Matches CPU performance" }]
      else []
    recs1 ++ recs2
  | _, _ => []

def recommendMoreRam (build : Build) (components : List Component)
    (issue : RuleResult) : List Recommendation :=
  let minGB : ℚ := if build.meta.target = .gaming then 16 else 32
  let biggerRams := (components.filter
    (fun c => c.type = .ram ∧ jsGe c.specs.capacityGBA (some (minGB / 2)))).take 3
  if biggerRams.length > 0 then
    [{ reasonCode := issue.code
       message := "Add more RAM to reach " ++ numStr minGB ++ "GB"
       replaceId := build.ram.head?
       alternatives := biggerRams.map (fun r => r.id)
       expectedEffect := "Improves performance for target workload" }]
  else []

def recommendAddSSD (_build : Build) (components : List Component)
    (issue : RuleResult) : List Recommendation :=
  let ssds := (components.filter
    (fun c => c.type = .storage ∧ c.specs.isSSDSpec)).take 3
  if ssds.length > 0 then
    [{ reasonCode := issue.code
       message := "Add an SSD for faster performance"
       replaceId := some ""
       alternatives := ssds.map (fun s => s.id)
       expectedEffect := "Dramatically improves load times" }]
  else []

/-- The `switch (issue.code)` dispatch of `generateRecommendations`. -/
def recsForIssue (build : Build) (components : List Component)
    (issue : RuleResult) : Except Unit (List Recommendation) :=
  if issue.code = "cpu-socket-mismatch" then
    .ok (recommendCpuSocketFix build components issue)
  else if issue.code = "ram-type-mismatch" then
    .ok (recommendRamTypeFix build components issue)
  else if issue.code = "form-factor-incompatible" then
    recommendFormFactorFix build components issue
  else if issue.code = "gpu-length-exceeds" then
    .ok (recommendGpuLengthFix build components issue)
  else if issue.code = "psu-insufficient" then
    .ok (recommendPsuUpgrade build components issue)
  else if issue.code = "cpu-gpu-mismatch" then
    .ok (recommendCpuGpuBalance build components issue)
  else if issue.code = "insufficient-ram-gaming" ∨ issue.code = "insufficient-ram-work" then
    .ok (recommendMoreRam build components issue)
  else if issue.code = "no-ssd" then
    .ok (recommendAddSSD build components issue)
  else .ok []

/-- Sequencing of a throwing callback over a list (`for ... of` / `map`
with a callback that may throw): the first throw aborts. -/
def mapMExcept {α β : Type} (f : α → Except Unit β) : List α → Except Unit (List β)
  | [] => .ok []
  | x :: xs => do
    let y ← f x
    let ys ← mapMExcept f xs
    pure (y :: ys)

/-- `generateRecommendations`: errors first, then warnings; each issue's
strategy runs in order, a throw aborts. -/
def generateRecommendations (build : Build) (components : List Component)
    (errors warnings : List RuleResult) : Except Unit (List Recommendation) := do
  let allIssues := errors ++ warnings
  let lists ← mapMExcept (recsForIssue build components) allIssues
  pure lists.flatten

/-- `getSelectedComponents` from `services/buildReport`: flatten the slot
ids (slot-declaration order), then ram, then storage; `filter(Boolean)`
drops `undefined` and `""`; unresolved ids are dropped. -/
def getSelectedComponents (build : Build) (components : List Component) :
    List Component :=
  let ids :=
    ([build.cpu, build.gpu, build.motherboard, build.cooler,
      build.pcCase, build.psu].filterMap truthy)
    ++ build.ram.filter (fun s => s ≠ "")
    ++ build.storage.filter (fun s => s ≠ "")
  ids.filterMap (fun id => components.find? (fun c => c.id = id))

/-- One step of the grouping `reduce`: count an id into an association list
kept in first-occurrence (JS object insertion) order. -/
def bump : List (String × Nat) → String → List (String × Nat)
  | [], id => [(id, 1)]
  | (k, n) :: rest, id =>
    if k = id then (k, n + 1) :: rest else (k, n) :: bump rest id

/-- The grouping `reduce` of `calculatePricing`. -/
def groupCounts (ids : List String) : List (String × Nat) :=
  ids.foldl bump []

/-- The line item built for one grouped `(id, quantity)` entry: `none`
when no price matches (`prices.find`), otherwise `total = unitPrice ×
quantity`. -/
def priceLineItem (prices : List Price) (g : String × Nat) : Option LineItem :=
  match prices.find? (fun p => p.componentId = g.1) with
  | some price => some
      { componentId := g.1
        quantity := g.2
        unitPrice := price.value
        total := price.value * (g.2 : ℚ)
        currency := price.currency }
  | none => none

/-- `calculatePricing`: one line item per grouped id having a price;
unpriced ids contribute nothing; the running `total` accumulates each
emitted line item's total. -/
def calculatePricing (selectedComponents : List Component) (prices : List Price) :
    ℚ × List LineItem :=
  let grouped := groupCounts (selectedComponents.map (fun c => c.id))
  let lineItems := grouped.filterMap (priceLineItem prices)
  (lineItems.foldl (fun t li => t + li.total) 0, lineItems)

/-- `generateSummary` from `services/buildReport`. -/
def generateSummary (build : Build) (errors warnings : List RuleResult)
    (totalPrice : ℚ) : String :=
  let errorCount := errors.length
  let warningCount := warnings.length
  let target := build.meta.target
  let s := "Build for " ++ target.str ++ " with " ++ numStr totalPrice ++ " USD total."
  let s := if errorCount > 0 then
    s ++ (" " ++ toString errorCount ++ " compatibility error(s) found.") else s
  let s := if warningCount > 0 then
    s ++ (" " ++ toString warningCount ++ " balance warning(s).") else s
  if errorCount = 0 ∧ warningCount = 0 then s ++ " No issues detected." else s

/-- `generateBuildReport`: the full aggregation pipeline. The `Except`
accounts for the one reachable throw inside the recommendation stage. -/
def generateBuildReport (build : Build) (components : List Component)
    (prices : List Price) : Except Unit BuildReport := do
  let selectedComponents := getSelectedComponents build components
  let errors := checkCompatibility build components
  let warnings := checkBalance build components
  let recommendations ← generateRecommendations build components errors warnings
  let priced := calculatePricing selectedComponents prices
  let summary := generateSummary build errors warnings priced.1
  pure { totalPrice := priced.1
         lineItems := priced.2
         errors := errors
         warnings := warnings
         recommendations := recommendations
         summary := summary
         fitment := [] }

/-! ### The monolithic `checkCompatibility` (untyped resolution, `as any`
field reads, `errors` then `warnings`). Split into per-rule segments in
source order; the two `.includes` calls on a possibly-`undefined` list are
the only throwing positions. -/

def monoSocketSeg (cpu motherboard : Option Component) : List RuleResult :=
  match cpu, motherboard with
  | some c, some m =>
    let cpuSocket := c.specs.socketA
    let mbSocket := m.specs.socketA
    if jsStrNe cpuSocket mbSocket then
      [{ code := "cpu-socket-mismatch"
         severity := .error
         message := "CPU socket " ++ strU cpuSocket ++
           " does not match motherboard socket " ++ strU mbSocket
         reason := "CPU and motherboard must have compatible sockets for installation"
         affectedIds := [c.id, m.id] }]
    else []
  | _, _ => []

def monoRamTypeSeg (rams : List Component) (motherboard : Option Component) :
    List RuleResult :=
  match motherboard with
  | some m =>
    if rams.length > 0 then
      let mbRamType := m.specs.ramTypeA
      let incompatibleRams := rams.filter (fun r => jsStrNe r.specs.ramTypeA mbRamType)
      if incompatibleRams.length > 0 then
        [{ code := "ram-type-mismatch"
           severity := .error
           message := "RAM type does not match motherboard DDR type " ++ strU mbRamType
           reason := "RAM must be compatible with motherboard DDR generation"
           affectedIds := m.id :: incompatibleRams.map (fun r => r.id) }]
      else []
    else []
  | none => []

def monoFormFactorSeg (motherboard case_ : Option Component) :
    Except Unit (List RuleResult) :=
  match motherboard, case_ with
  | some m, some k =>
    let mbFormFactor := m.specs.formFactorA
    match k.specs.formFactorCompatibilityA with
    | none => .error ()
    | some caseCompat =>
      .ok (if ¬ jsIncludes caseCompat mbFormFactor then
        [{ code := "form-factor-incompatible"
           severity := .error
           message := "Motherboard form factor " ++ strU mbFormFactor ++
             " not supported by case"
           reason := "Case must support the motherboard form factor"
           affectedIds := [m.id, k.id] }]
      else [])
  | _, _ => .ok []

def monoGpuLenSeg (gpu case_ : Option Component) : List RuleResult :=
  match gpu, case_ with
  | some g, some k =>
    let gpuLength := g.specs.lengthMmA
    let caseMax := k.specs.maxGpuLengthMmA
    if jsGt gpuLength caseMax then
      [{ code := "gpu-length-exceeds"
         severity := .error
         message := "GPU length " ++ numStrU gpuLength ++ "mm exceeds case max " ++
           numStrU caseMax ++ "mm"
         reason := "GPU must fit within the case dimensions"
         affectedIds := [g.id, k.id] }]
    else []
  | _, _ => []

def monoPsuSeg (cpu gpu : Option Component) (rams storages : List Component)
    (psu : Option Component) : List RuleResult × List RuleResult :=
  if cpu.isSome ∨ gpu.isSome ∨ rams.length > 0 ∨ storages.length > 0 then
    let estimatedWatt := calculateEstimatedWattU cpu gpu rams storages
    let required := jsMul estimatedWatt 1.25
    match psu with
    | some p =>
      let psuWatt := p.specs.wattageA
      if jsLt psuWatt required then
        ([{ code := "psu-insufficient"
            severity := .error
            message := "PSU " ++ numStrU psuWatt ++ "W insufficient for estimated " ++
              numStrU estimatedWatt ++ "W system"
            reason := "PSU must provide at least 125% of estimated system power"
            affectedIds := [p.id] }], [])
      else if jsLt psuWatt (jsMul estimatedWatt 1.5) then
        ([], [{ code := "psu-close"
                severity := .warning
                message := "PSU " ++ numStrU psuWatt ++ "W is close to estimated " ++
                  numStrU estimatedWatt ++ "W system"
                reason := "Consider higher wattage PSU for stability"
                affectedIds := [p.id] }])
      else ([], [])
    | none => ([], [])
  else ([], [])

def monoRamSlotsSeg (rams : List Component) (motherboard : Option Component) :
    List RuleResult :=
  match motherboard with
  | some m =>
    if rams.length > 0 then
      let mbSlots := m.specs.ramSlotsA
      if jsGt (some (rams.length : ℚ)) mbSlots then
        [{ code := "ram-slots-exceed"
           severity := .error
           message := "Too many RAM sticks (" ++ toString rams.length ++
             ") for motherboard slots (" ++ numStrU mbSlots ++ ")"
           reason := "Motherboard has limited RAM slots"
           affectedIds := m.id :: rams.map (fun r => r.id) }]
      else []
    else []
  | none => []

def monoCoolerSeg (cpu cooler : Option Component) : Except Unit (List RuleResult) :=
  match cpu, cooler with
  | some c, some k =>
    let cpuSocket := c.specs.socketA
    match k.specs.socketCompatibilityA with
    | none => .error ()
    | some coolerCompat =>
      .ok (if ¬ jsIncludes coolerCompat cpuSocket then
        [{ code := "cooler-incompatible"
           severity := .error
           message := "Cooler not compatible with CPU socket " ++ strU cpuSocket
           reason := "Cooler must support the CPU socket"
           affectedIds := [k.id, c.id] }]
      else [])
  | _, _ => .ok []

/-- The monolithic `checkCompatibility`: pushes errors in rule order, then
appends the warnings (`[...errors, ...warnings]`). -/
def checkCompatibilityMono (build : Build) (components : List Component) :
    Except Unit (List RuleResult) := do
  let cpu := resolveSlot build.cpu components
  let gpu := resolveSlot build.gpu components
  let motherboard := resolveSlot build.motherboard components
  let cooler := resolveSlot build.cooler components
  let case_ := resolveSlot build.pcCase components
  let psu := resolveSlot build.psu components
  let rams := resolveList build.ram components
  let storages := resolveList build.storage components
  let e1 := monoSocketSeg cpu motherboard
  let e2 := monoRamTypeSeg rams motherboard
  let e3 ← monoFormFactorSeg motherboard case_
  let e4 := monoGpuLenSeg gpu case_
  let psuSeg := monoPsuSeg cpu gpu rams storages psu
  let e6 := monoRamSlotsSeg rams motherboard
  let e7 ← monoCoolerSeg cpu cooler
  pure (e1 ++ e2 ++ e3 ++ e4 ++ psuSeg.1 ++ e6 ++ e7 ++ psuSeg.2)

/-! ### Exception-aware rule engine: a registered rule implementation is an
arbitrary callback and may throw; `execute` has no try/catch, so the `map`
over checks propagates the first exception. -/

/-- A registered rule whose `check` callback may throw. -/
structure DynRule where
  id : String
  name : String
  check : Build → List Component → Except Unit (Option RuleResult)
  priority : Int
  category : RuleCategory
  enabled : Bool

/-- `RuleEngine.execute` with throwing callbacks: filter to enabled, stable
descending sort, run each check in order (no try/catch — the first throw
propagates), keep the non-null results. -/
def RuleEngineE.execute (rules : List DynRule) (build : Build)
    (components : List Component) : Except Unit (List RuleResult) := do
  let results ← mapMExcept (fun r => r.check build components)
    (sortByPrioDesc (fun r => r.priority) (rules.filter (fun r => r.enabled)))
  pure (results.filterMap id)

/-! ## Lemmas about the stable descending sort -/

theorem insertByPrioDesc_eq_orderedInsert {α : Type} (prio : α → Int) (r : α)
    (l : List α) :
    insertByPrioDesc prio r l = l.orderedInsert (fun a b => prio b ≤ prio a) r := by
  induction l with
  | nil => rfl
  | cons x xs ih =>
    simp only [insertByPrioDesc, List.orderedInsert, ih]

theorem sortByPrioDesc_eq_insertionSort {α : Type} (prio : α → Int) (l : List α) :
    sortByPrioDesc prio l = l.insertionSort (fun a b => prio b ≤ prio a) := by
  induction l with
  | nil => rfl
  | cons x xs ih =>
    simp only [sortByPrioDesc, List.insertionSort, ih,
      insertByPrioDesc_eq_orderedInsert]

theorem sortByPrioDesc_perm {α : Type} (prio : α → Int) (l : List α) :
    (sortByPrioDesc prio l).Perm l := by
  rw [sortByPrioDesc_eq_insertionSort]
  exact List.perm_insertionSort _ l

theorem sortByPrioDesc_sorted {α : Type} (prio : α → Int) (l : List α) :
    (sortByPrioDesc prio l).Sorted (fun a b => prio b ≤ prio a) := by
  rw [sortByPrioDesc_eq_insertionSort]
  haveI : IsTotal α (fun a b => prio b ≤ prio a) :=
    ⟨fun a b => le_total (prio b) (prio a)⟩
  haveI : IsTrans α (fun a b => prio b ≤ prio a) :=
    ⟨fun _ _ _ hab hbc => le_trans hbc hab⟩
  exact List.sorted_insertionSort _ l

theorem insertByPrioDesc_filter {α : Type} (prio : α → Int) (r : α) (l : List α)
    (p : Int) :
    (insertByPrioDesc prio r l).filter (fun x => prio x = p) =
      if prio r = p then r :: l.filter (fun x => prio x = p)
      else l.filter (fun x => prio x = p) := by
  induction l with
  | nil =>
    by_cases hr : prio r = p <;> simp [insertByPrioDesc, List.filter_cons, hr]
  | cons x xs ih =>
    by_cases hx : prio x ≤ prio r
    · simp only [insertByPrioDesc, if_pos hx]
      by_cases hr : prio r = p <;> simp [List.filter_cons, hr]
    · simp only [insertByPrioDesc, if_neg hx]
      push_neg at hx
      by_cases hxp : prio x = p
      · have hrp : prio r ≠ p := by omega
        simp [List.filter_cons, hxp, hrp, ih]
      · simp [List.filter_cons, hxp, ih]

/-- Stability: the sort does not change the relative order of
equal-priority elements. -/
theorem sortByPrioDesc_filter {α : Type} (prio : α → Int) (l : List α) (p : Int) :
    (sortByPrioDesc prio l).filter (fun x => prio x = p) =
      l.filter (fun x => prio x = p) := by
  induction l with
  | nil => rfl
  | cons x xs ih =>
    simp only [sortByPrioDesc, insertByPrioDesc_filter, ih, List.filter_cons]
    by_cases hxp : prio x = p <;> simp [hxp]

theorem filterMap_id_of_map {α β : Type} (f : α → Option β) (l : List α) :
    (l.map f).filterMap id = l.filterMap f := by
  induction l with
  | nil => rfl
  | cons x xs ih =>
    cases hx : f x <;> simp [List.filterMap_cons, hx, ih]

theorem execute_eq_filterMap (rules : List CompatibilityRule) (build : Build)
    (components : List Component) :
    RuleEngine.execute rules build components =
      (sortByPriorityDesc (rules.filter (fun r => r.enabled))).filterMap
        (fun r => r.check build components) := by
  simp only [RuleEngine.execute, sortByPriorityDesc, filterMap_id_of_map]

theorem filterMap_cons_toList {α β : Type} (f : α → Option β) (a : α) (l : List α) :
    List.filterMap f (a :: l) = (f a).toList ++ List.filterMap f l := by
  cases h : f a <;> simp [List.filterMap_cons, h]

/-- The seven registered rules are all enabled and already in strictly
descending priority order, so `execute` visits them in registration order. -/
theorem sorted_registeredRules :
    sortByPriorityDesc (registeredRules.filter (fun r => r.enabled)) =
      registeredRules := by
  rfl

/-- The registry-based `checkCompatibility` is the concatenation of the
seven rules' optional findings, in registration (= priority) order. -/
theorem checkCompatibility_eq (build : Build) (components : List Component) :
    checkCompatibility build components =
      (socketCompatibilityRule.check build components).toList ++
      ((ramTypeCompatibilityRule.check build components).toList ++
      ((formFactorCompatibilityRule.check build components).toList ++
      ((gpuLengthCompatibilityRule.check build components).toList ++
      ((psuWattageRule.check build components).toList ++
      ((ramSlotsRule.check build components).toList ++
      (coolerCompatibilityRule.check build components).toList))))) := by
  rw [checkCompatibility, execute_eq_filterMap, sorted_registeredRules]
  show List.filterMap _ [socketCompatibilityRule, ramTypeCompatibilityRule,
    formFactorCompatibilityRule, gpuLengthCompatibilityRule, psuWattageRule,
    ramSlotsRule, coolerCompatibilityRule] = _
  simp only [filterMap_cons_toList, List.filterMap_nil, List.append_nil]

/-- C4. `RuleEngine.execute` runs exactly the enabled rules, in descending
priority order with the registration order preserved among equal
priorities, and returns the non-null check results in that rule order. -/
theorem execute_order_spec (rules : List CompatibilityRule) (build : Build)
    (components : List Component) :
    RuleEngine.execute rules build components =
      (sortByPriorityDesc (rules.filter (fun r => r.enabled))).filterMap
        (fun r => r.check build components)
    ∧ (sortByPriorityDesc (rules.filter (fun r => r.enabled))).Perm
        (rules.filter (fun r => r.enabled))
    ∧ (sortByPriorityDesc (rules.filter (fun r => r.enabled))).Sorted
        (fun a b => b.priority ≤ a.priority)
    ∧ ∀ p : Int,
        (sortByPriorityDesc (rules.filter (fun r => r.enabled))).filter
          (fun r => r.priority = p) =
        (rules.filter (fun r => r.enabled)).filter (fun r => r.priority = p) := by
  refine ⟨?_, ?_, ?_, ?_⟩
  · exact execute_eq_filterMap rules build components
  · exact sortByPrioDesc_perm _ _
  · exact sortByPrioDesc_sorted _ _
  · exact fun p => sortByPrioDesc_filter _ _ p

/-! ## C2: the PSU wattage rule -/

theorem psuWattageRule_check_eq (build : Build) (components : List Component) :
    psuWattageRule.check build components =
      (if getCPU build components = none ∧ getGPU build components = none ∧
          (getRAM build components).length = 0 ∧
          (getStorage build components).length = 0 then none
      else
        match getPSU build components with
        | none => none
        | some p =>
          if p.2.wattage <
              calculateEstimatedWatt (getCPU build components)
                (getGPU build components) (getRAM build components)
                (getStorage build components) * 1.25 then
            some { code := "psu-insufficient"
                   severity := .error
                   message := "PSU " ++ numStr p.2.wattage ++
                     "W insufficient for estimated " ++
                     numStr (calculateEstimatedWatt (getCPU build components)
                       (getGPU build components) (getRAM build components)
                       (getStorage build components)) ++ "W system"
                   reason := "PSU must provide at least 125% of estimated system power"
                   affectedIds := [p.1.id] }
          else if p.2.wattage <
              calculateEstimatedWatt (getCPU build components)
                (getGPU build components) (getRAM build components)
                (getStorage build components) * 1.5 then
            some { code := "psu-close"
                   severity := .warning
                   message := "PSU " ++ numStr p.2.wattage ++
                     "W is close to estimated " ++
                     numStr (calculateEstimatedWatt (getCPU build components)
                       (getGPU build components) (getRAM build components)
                       (getStorage build components)) ++ "W system"
                   reason := "Consider higher wattage PSU for stability"
                   affectedIds := [p.1.id] }
          else none) := rfl

/-- C2. The PSU wattage rule fires only when a core component (CPU, GPU,
RAM or storage) and a PSU are selected; with the estimate
`50 + cpu.tdpW + gpu.tdpW + 10 × ram-count + 5 × storage-count` it emits
error `psu-insufficient` below `estimate × 1.25`, warning `psu-close`
below `estimate × 1.5`, and otherwise nothing. -/
theorem psuWattageRule_trigger_spec (build : Build) (components : List Component) :
    calculateEstimatedWatt (getCPU build components) (getGPU build components)
        (getRAM build components) (getStorage build components) =
      50 + (match getCPU build components with | some c => c.2.tdpW | none => 0) +
        (match getGPU build components with | some g => g.2.tdpW | none => 0) +
        10 * ((getRAM build components).length : ℚ) +
        5 * ((getStorage build components).length : ℚ)
    ∧ (psuWattageRule.check build components ≠ none →
        ((getCPU build components ≠ none ∨ getGPU build components ≠ none ∨
          getRAM build components ≠ [] ∨ getStorage build components ≠ []) ∧
          getPSU build components ≠ none))
    ∧ (∀ p, getPSU build components = some p →
        (getCPU build components ≠ none ∨ getGPU build components ≠ none ∨
          getRAM build components ≠ [] ∨ getStorage build components ≠ []) →
        ((p.2.wattage <
            calculateEstimatedWatt (getCPU build components)
              (getGPU build components) (getRAM build components)
              (getStorage build components) * 1.25 →
          ∃ r, psuWattageRule.check build components = some r ∧
            r.code = "psu-insufficient" ∧ r.severity = .error ∧
            r.affectedIds = [p.1.id])
        ∧ (¬ p.2.wattage <
            calculateEstimatedWatt (getCPU build components)
              (getGPU build components) (getRAM build components)
              (getStorage build components) * 1.25 →
          p.2.wattage <
            calculateEstimatedWatt (getCPU build components)
              (getGPU build components) (getRAM build components)
              (getStorage build components) * 1.5 →
          ∃ r, psuWattageRule.check build components = some r ∧
            r.code = "psu-close" ∧ r.severity = .warning ∧
            r.affectedIds = [p.1.id])
        ∧ (¬ p.2.wattage <
            calculateEstimatedWatt (getCPU build components)
              (getGPU build components) (getRAM build components)
              (getStorage build components) * 1.25 →
          ¬ p.2.wattage <
            calculateEstimatedWatt (getCPU build components)
              (getGPU build components) (getRAM build components)
              (getStorage build components) * 1.5 →
          psuWattageRule.check build components = none))) := by
  refine ⟨?_, ?_, ?_⟩
  · unfold calculateEstimatedWatt
    ring
  · intro h
    rw [psuWattageRule_check_eq] at h
    by_cases hc : getCPU build components = none ∧ getGPU build components = none ∧
        (getRAM build components).length = 0 ∧ (getStorage build components).length = 0
    · rw [if_pos hc] at h
      exact absurd rfl h
    · refine ⟨?_, ?_⟩
      · rcases not_and_or.mp hc with h1 | h23
        · exact Or.inl h1
        · rcases not_and_or.mp h23 with h2 | h34
          · exact Or.inr (Or.inl h2)
          · rcases not_and_or.mp h34 with h3 | h4
            · exact Or.inr (Or.inr (Or.inl (fun he => h3 (by simp [he]))))
            · exact Or.inr (Or.inr (Or.inr (fun he => h4 (by simp [he]))))
      · intro hpsu
        rw [if_neg hc, hpsu] at h
        exact h rfl
  · intro p hp hcore
    have hc : ¬ (getCPU build components = none ∧ getGPU build components = none ∧
        (getRAM build components).length = 0 ∧ (getStorage build components).length = 0) := by
      rcases hcore with h1 | h2 | h3 | h4
      · exact fun hh => h1 hh.1
      · exact fun hh => h2 hh.2.1
      · exact fun hh => h3 (List.length_eq_zero.mp hh.2.2.1)
      · exact fun hh => h4 (List.length_eq_zero.mp hh.2.2.2)
    refine ⟨?_, ?_, ?_⟩
    · intro hlt
      rw [psuWattageRule_check_eq, if_neg hc, hp]
      dsimp only
      rw [if_pos hlt]
      exact ⟨_, rfl, rfl, rfl, rfl⟩
    · intro hge hlt
      rw [psuWattageRule_check_eq, if_neg hc, hp]
      dsimp only
      rw [if_neg hge, if_pos hlt]
      exact ⟨_, rfl, rfl, rfl, rfl⟩
    · intro hge1 hge2
      rw [psuWattageRule_check_eq, if_neg hc, hp]
      dsimp only
      rw [if_neg hge1, if_neg hge2]

/-! ## Demo inputs used by the witnesses -/

def ramStickSpec : RamSpecs :=
  { ramType := "DDR4", speed := 3200, capacityGB := 16, sticks := 1 }

def ramStick : Component :=
  { id := "ram-1", type := .ram, brand := "K", model := "V",
    specs := .ram ramStickSpec }

def smallPSUSpec : PsuSpecs :=
  { wattage := 80, efficiency := "80+", modular := true }

def smallPSU : Component :=
  { id := "psu-80", type := .psu, brand := "B", model := "P",
    specs := .psu smallPSUSpec }

def psuDemoCatalog : List Component := [ramStick, smallPSU]

def psuDemoBuild : Build :=
  { ram := ["ram-1"], psu := some "psu-80", meta := { target := .mixed } }

def emptyBuild : Build := { meta := { target := .mixed } }

/-- Witness for C2: one RAM stick (estimate 60W) and an 80W PSU sit between
the 75W error bound and the 90W warning bound, so `psu-close` fires. -/
theorem psuWattageRule_trigger_spec_witness :
    ∃ r, psuWattageRule.check psuDemoBuild psuDemoCatalog = some r ∧
      r.code = "psu-close" ∧ r.severity = Severity.warning ∧
      r.affectedIds = ["psu-80"] :=
  ((psuWattageRule_trigger_spec psuDemoBuild psuDemoCatalog).2.2
      (smallPSU, smallPSUSpec) rfl
      (Or.inr (Or.inr (Or.inl (by decide)))))
    |>.2.1
      (by
        rw [show getCPU psuDemoBuild psuDemoCatalog = none from rfl,
          show getGPU psuDemoBuild psuDemoCatalog = none from rfl,
          show getRAM psuDemoBuild psuDemoCatalog = [(ramStick, ramStickSpec)] from rfl,
          show getStorage psuDemoBuild psuDemoCatalog = [] from rfl]
        norm_num [calculateEstimatedWatt, smallPSUSpec])
      (by
        rw [show getCPU psuDemoBuild psuDemoCatalog = none from rfl,
          show getGPU psuDemoBuild psuDemoCatalog = none from rfl,
          show getRAM psuDemoBuild psuDemoCatalog = [(ramStick, ramStickSpec)] from rfl,
          show getStorage psuDemoBuild psuDemoCatalog = [] from rfl]
        norm_num [calculateEstimatedWatt, smallPSUSpec])

/-- C6. `generateBuildReport` is deterministic: identical inputs give
identical reports. -/
theorem generateBuildReport_deterministic (b₁ b₂ : Build)
    (c₁ c₂ : List Component) (p₁ p₂ : List Price)
    (hb : b₁ = b₂) (hc : c₁ = c₂) (hp : p₁ = p₂) :
    generateBuildReport b₁ c₁ p₁ = generateBuildReport b₂ c₂ p₂ := by
  subst hb; subst hc; subst hp; rfl

/-- Witness for C6 at a concrete input. -/
theorem generateBuildReport_deterministic_witness :
    generateBuildReport emptyBuild [] [] = generateBuildReport emptyBuild [] [] :=
  generateBuildReport_deterministic emptyBuild emptyBuild [] [] [] [] rfl rfl rfl

/-- Inversion of a successful `generateBuildReport` run: every report field
is the corresponding pipeline stage's value. -/
theorem generateBuildReport_ok (build : Build) (components : List Component)
    (prices : List Price) (rpt : BuildReport)
    (h : generateBuildReport build components prices = Except.ok rpt) :
    rpt.errors = checkCompatibility build components ∧
    rpt.warnings = checkBalance build components ∧
    rpt.totalPrice =
      (calculatePricing (getSelectedComponents build components) prices).1 ∧
    rpt.lineItems =
      (calculatePricing (getSelectedComponents build components) prices).2 ∧
    rpt.summary = generateSummary build (checkCompatibility build components)
      (checkBalance build components)
      (calculatePricing (getSelectedComponents build components) prices).1 ∧
    (∃ recs, generateRecommendations build components
        (checkCompatibility build components) (checkBalance build components) =
          Except.ok recs ∧ rpt.recommendations = recs) ∧
    rpt.fitment = [] := by
  unfold generateBuildReport at h
  dsimp only at h
  rcases hrec : generateRecommendations build components
      (checkCompatibility build components) (checkBalance build components)
    with e | recs
  · rw [hrec] at h
    simp [bind, Except.bind] at h
  · rw [hrec] at h
    simp only [bind, Except.bind, pure, Except.pure, Except.ok.injEq] at h
    subst h
    exact ⟨rfl, rfl, rfl, rfl, rfl, ⟨recs, rfl, rfl⟩, rfl⟩

/-- C5. The report summary is the base sentence followed by the error
clause exactly when errors are present, then the warning clause exactly
when warnings are present, and the no-issues clause exactly when both are
absent. -/
theorem summary_structure_spec (build : Build) (components : List Component)
    (prices : List Price) (rpt : BuildReport)
    (h : generateBuildReport build components prices = Except.ok rpt) :
    rpt.summary =
      "Build for " ++ build.meta.target.str ++ " with " ++ numStr rpt.totalPrice ++
        " USD total." ++
      (if rpt.errors.length = 0 then "" else
        " " ++ toString rpt.errors.length ++ " compatibility error(s) found.") ++
      (if rpt.warnings.length = 0 then "" else
        " " ++ toString rpt.warnings.length ++ " balance warning(s).") ++
      (if rpt.errors.length = 0 ∧ rpt.warnings.length = 0 then
        " No issues detected." else "") := by
  obtain ⟨he, hw, htp, -, hs, -, -⟩ :=
    generateBuildReport_ok build components prices rpt h
  rw [hs, htp, he, hw]
  unfold generateSummary
  by_cases he0 : (checkCompatibility build components).length = 0 <;>
    by_cases hw0 : (checkBalance build components).length = 0 <;>
      simp [he0, hw0, Nat.pos_iff_ne_zero, String.append_assoc]

/-- Concrete report of the empty build against an empty catalog: no line
items, no errors, just the vacuous `no-ssd` warning. -/
def emptyBuildReport : BuildReport :=
  { totalPrice := 0
    lineItems := []
    errors := []
    warnings := [{ code := "no-ssd", severity := .warning,
                   message := "No SSD selected, system may be slow",
                   reason := "SSD provides much faster boot and load times",
                   affectedIds := [] }]
    recommendations := []
    summary := "Build for mixed with 0 USD total. 1 balance warning(s)."
    fitment := [] }

/-- Witness for C5 at a concrete input. -/
theorem summary_structure_spec_witness :
    generateBuildReport emptyBuild [] [] = Except.ok emptyBuildReport ∧
    emptyBuildReport.summary =
      "Build for " ++ emptyBuild.meta.target.str ++ " with " ++
        numStr emptyBuildReport.totalPrice ++ " USD total." ++
      (if emptyBuildReport.errors.length = 0 then "" else
        " " ++ toString emptyBuildReport.errors.length ++
          " compatibility error(s) found.") ++
      (if emptyBuildReport.warnings.length = 0 then "" else
        " " ++ toString emptyBuildReport.warnings.length ++ " balance warning(s).") ++
      (if emptyBuildReport.errors.length = 0 ∧
          emptyBuildReport.warnings.length = 0 then
        " No issues detected." else "") :=
  ⟨rfl, summary_structure_spec emptyBuild [] [] emptyBuildReport rfl⟩

/-! ## C8: the `no-ssd` balance warning -/

theorem balanceCpuGpuSeg_codes (t : Target) (c g : Option Component) :
    ∀ r ∈ balanceCpuGpuSeg t c g, r.code = "cpu-gpu-mismatch" := by
  intro r hr
  unfold balanceCpuGpuSeg at hr
  split at hr
  · split at hr
    · rw [List.mem_singleton] at hr
      subst hr
      rfl
    · simp at hr
  · simp at hr

theorem balanceRamSeg_codes (t : Target) (rams : List Component) :
    ∀ r ∈ balanceRamSeg t rams,
      r.code = "insufficient-ram-gaming" ∨ r.code = "insufficient-ram-work" := by
  intro r hr
  unfold balanceRamSeg at hr
  dsimp only at hr
  split at hr
  · rw [List.mem_singleton] at hr
    subst hr
    exact Or.inl rfl
  · split at hr
    · rw [List.mem_singleton] at hr
      subst hr
      exact Or.inr rfl
    · simp at hr

theorem balanceSsdSeg_codes (storages : List Component) :
    ∀ r ∈ balanceSsdSeg storages, r.code = "no-ssd" := by
  intro r hr
  unfold balanceSsdSeg at hr
  dsimp only at hr
  split at hr
  · rw [List.mem_singleton] at hr
    subst hr
    rfl
  · simp at hr

theorem balancePsuSeg_codes (cpu gpu : Option Component)
    (rams storages : List Component) (psu : Option Component) :
    ∀ r ∈ balancePsuSeg cpu gpu rams storages psu, r.code = "psu-oversized" := by
  intro r hr
  unfold balancePsuSeg at hr
  split at hr
  · split at hr
    · dsimp only at hr
      split at hr
      · rw [List.mem_singleton] at hr
        subst hr
        rfl
      · simp at hr
    · simp at hr
  · simp at hr

/-- Every balance finding carries one of the five balance codes. -/
theorem checkBalance_codes (build : Build) (components : List Component) :
    ∀ r ∈ checkBalance build components,
      r.code = "cpu-gpu-mismatch" ∨ r.code = "insufficient-ram-gaming" ∨
      r.code = "insufficient-ram-work" ∨ r.code = "no-ssd" ∨
      r.code = "psu-oversized" := by
  intro r hr
  unfold checkBalance at hr
  dsimp only at hr
  rcases List.mem_append.mp hr with h | h
  · rcases List.mem_append.mp h with h | h
    · rcases List.mem_append.mp h with h | h
      · exact Or.inl (balanceCpuGpuSeg_codes _ _ _ r h)
      · rcases balanceRamSeg_codes _ _ r h with h2 | h2
        · exact Or.inr (Or.inl h2)
        · exact Or.inr (Or.inr (Or.inl h2))
    · exact Or.inr (Or.inr (Or.inr (Or.inl (balanceSsdSeg_codes _ r h))))
  · exact Or.inr (Or.inr (Or.inr (Or.inr (balancePsuSeg_codes _ _ _ _ _ r h))))

/-- C8. `checkBalance` emits the `no-ssd` warning exactly when no resolved
selected storage entry is an SSD (vacuously when none is selected), with
`affectedIds` the resolved selected storage ids. -/
theorem no_ssd_warning_spec (build : Build) (components : List Component) :
    (checkBalance build components).filter (fun r => r.code = "no-ssd") =
      (if (resolveList build.storage components).any (fun s => s.specs.isSSDSpec)
       then []
       else [{ code := "no-ssd", severity := .warning,
               message := "No SSD selected, system may be slow",
               reason := "SSD provides much faster boot and load times",
               affectedIds := (resolveList build.storage components).map
                 (fun s => s.id) }]) := by
  unfold checkBalance
  dsimp only
  rw [List.filter_append, List.filter_append, List.filter_append]
  have h1 : (balanceCpuGpuSeg build.meta.target (resolveSlot build.cpu components)
      (resolveSlot build.gpu components)).filter (fun r => r.code = "no-ssd") = [] := by
    rw [List.filter_eq_nil_iff]
    intro r hr
    simp [balanceCpuGpuSeg_codes _ _ _ r hr]
  have h2 : (balanceRamSeg build.meta.target
      (resolveList build.ram components)).filter (fun r => r.code = "no-ssd") = [] := by
    rw [List.filter_eq_nil_iff]
    intro r hr
    rcases balanceRamSeg_codes _ _ r hr with h | h <;> simp [h]
  have h4 : (balancePsuSeg (resolveSlot build.cpu components)
      (resolveSlot build.gpu components) (resolveList build.ram components)
      (resolveList build.storage components)
      (resolveSlot build.psu components)).filter (fun r => r.code = "no-ssd") = [] := by
    rw [List.filter_eq_nil_iff]
    intro r hr
    simp [balancePsuSeg_codes _ _ _ _ _ r hr]
  rw [h1, h2, h4]
  by_cases hss : (resolveList build.storage components).any
      (fun s => s.specs.isSSDSpec) = true
  · simp [balanceSsdSeg, hss]
  · simp only [Bool.not_eq_true] at hss
    simp [balanceSsdSeg, hss]

/-! ## C3: grouping and pricing -/

/-- The count recorded for key `k` in a grouping association list. -/
def getCnt (l : List (String × Nat)) (k : String) : Nat :=
  match l.find? (fun p => p.1 = k) with
  | some p => p.2
  | none => 0

theorem getCnt_cons_self (k : String) (n : Nat) (tl : List (String × Nat)) :
    getCnt ((k, n) :: tl) k = n := by
  unfold getCnt
  rw [List.find?_cons_of_pos _ (by simp)]

theorem getCnt_cons_ne (k' k : String) (n : Nat) (tl : List (String × Nat))
    (h : k' ≠ k) : getCnt ((k', n) :: tl) k = getCnt tl k := by
  unfold getCnt
  rw [List.find?_cons_of_neg _ (by simp [h])]

theorem bump_getCnt_self (l : List (String × Nat)) (x : String) :
    getCnt (bump l x) x = getCnt l x + 1 := by
  induction l with
  | nil =>
    rw [show bump [] x = [(x, 1)] from rfl, getCnt_cons_self]
    rfl
  | cons hd tl ih =>
    rcases hd with ⟨k, n⟩
    by_cases hk : k = x
    · subst hk
      rw [show bump ((k, n) :: tl) k = (k, n + 1) :: tl from by simp [bump],
        getCnt_cons_self, getCnt_cons_self]
    · rw [show bump ((k, n) :: tl) x = (k, n) :: bump tl x from by simp [bump, hk],
        getCnt_cons_ne _ _ _ _ hk, getCnt_cons_ne _ _ _ _ hk]
      exact ih

theorem bump_getCnt_ne (l : List (String × Nat)) (x k : String) (h : k ≠ x) :
    getCnt (bump l x) k = getCnt l k := by
  induction l with
  | nil =>
    rw [show bump [] x = [(x, 1)] from rfl,
      getCnt_cons_ne _ _ _ _ (fun hh => h hh.symm)]
  | cons hd tl ih =>
    rcases hd with ⟨k', n⟩
    by_cases hk : k' = x
    · subst hk
      rw [show bump ((k', n) :: tl) k' = (k', n + 1) :: tl from by simp [bump],
        getCnt_cons_ne _ _ _ _ (fun hh => h hh.symm),
        getCnt_cons_ne _ _ _ _ (fun hh => h hh.symm)]
    · rw [show bump ((k', n) :: tl) x = (k', n) :: bump tl x from by
        simp [bump, hk]]
      by_cases hk2 : k' = k
      · subst hk2
        rw [getCnt_cons_self, getCnt_cons_self]
      · rw [getCnt_cons_ne _ _ _ _ hk2, getCnt_cons_ne _ _ _ _ hk2]
        exact ih

theorem bump_keys (l : List (String × Nat)) (x : String) :
    (bump l x).map Prod.fst =
      if x ∈ l.map Prod.fst then l.map Prod.fst else l.map Prod.fst ++ [x] := by
  induction l with
  | nil => simp [bump]
  | cons hd tl ih =>
    rcases hd with ⟨k, n⟩
    by_cases hk : k = x
    · subst hk
      simp [bump]
    · simp only [bump, if_neg hk, List.map_cons]
      rw [ih]
      by_cases hx : x ∈ tl.map Prod.fst
      · rw [if_pos hx, if_pos (by simp [hx])]
      · rw [if_neg hx, if_neg (by simp [hx, Ne.symm hk])]
        simp

theorem bump_keys_nodup (l : List (String × Nat)) (x : String)
    (h : (l.map Prod.fst).Nodup) : ((bump l x).map Prod.fst).Nodup := by
  rw [bump_keys]
  by_cases hx : x ∈ l.map Prod.fst
  · rwa [if_pos hx]
  · rw [if_neg hx]
    simp [List.nodup_append, h, hx]

theorem foldl_bump_getCnt (ids : List String) (acc : List (String × Nat))
    (k : String) :
    getCnt (ids.foldl bump acc) k = getCnt acc k + ids.count k := by
  induction ids generalizing acc with
  | nil => simp
  | cons x rest ih =>
    rw [List.foldl_cons, ih]
    by_cases hxk : x = k
    · subst hxk
      rw [bump_getCnt_self]
      simp [List.count_cons]
      omega
    · rw [bump_getCnt_ne _ _ _ (fun hh => hxk hh.symm)]
      simp [List.count_cons, hxk]

theorem foldl_bump_keys_nodup (ids : List String) (acc : List (String × Nat))
    (h : (acc.map Prod.fst).Nodup) :
    ((ids.foldl bump acc).map Prod.fst).Nodup := by
  induction ids generalizing acc with
  | nil => exact h
  | cons x rest ih => exact ih _ (bump_keys_nodup _ _ h)

theorem mem_keys_of_getCnt_pos (l : List (String × Nat)) (k : String)
    (h : 0 < getCnt l k) : k ∈ l.map Prod.fst := by
  unfold getCnt at h
  cases hf : l.find? (fun p => p.1 = k) with
  | none => rw [hf] at h; simp at h
  | some p =>
    have hp : p ∈ l := List.mem_of_find?_eq_some hf
    have hk : p.1 = k := by simpa using List.find?_some hf
    exact hk ▸ List.mem_map_of_mem Prod.fst hp

theorem find?_eq_of_mem_nodupKeys (l : List (String × Nat))
    (hnd : (l.map Prod.fst).Nodup) (p : String × Nat) (hp : p ∈ l) :
    l.find? (fun q => q.1 = p.1) = some p := by
  induction l with
  | nil => simp at hp
  | cons hd tl ih =>
    rcases List.mem_cons.mp hp with rfl | hp'
    · rw [List.find?_cons_of_pos _ (by simp)]
    · have hhd : hd.1 ≠ p.1 := by
        intro hh
        have : p.1 ∈ tl.map Prod.fst := List.mem_map_of_mem Prod.fst hp'
        rw [List.map_cons, List.nodup_cons] at hnd
        exact hnd.1 (hh ▸ this)
      rw [List.find?_cons_of_neg _ (by simp [hhd])]
      exact ih (by rw [List.map_cons, List.nodup_cons] at hnd; exact hnd.2) hp'

/-- Each grouped entry records the occurrence count of its key. -/
theorem groupCounts_spec (ids : List String) :
    ((groupCounts ids).map Prod.fst).Nodup ∧
    (∀ p ∈ groupCounts ids, p.2 = ids.count p.1) ∧
    (∀ k ∈ ids, k ∈ (groupCounts ids).map Prod.fst) := by
  refine ⟨foldl_bump_keys_nodup ids [] (by simp), ?_, ?_⟩
  · intro p hp
    have hnd := foldl_bump_keys_nodup ids [] (by simp)
    have hfind := find?_eq_of_mem_nodupKeys _ hnd p hp
    have hcount : getCnt (List.foldl bump [] ids) p.1 = ids.count p.1 := by
      rw [foldl_bump_getCnt]
      simp [getCnt]
    unfold getCnt at hcount
    rw [hfind] at hcount
    exact hcount
  · intro k hk
    apply mem_keys_of_getCnt_pos
    unfold groupCounts
    rw [foldl_bump_getCnt]
    have : 0 < ids.count k := List.count_pos_iff.mpr hk
    omega

theorem priceLineItem_some (prices : List Price) (g : String × Nat)
    (li : LineItem) (h : priceLineItem prices g = some li) :
    ∃ pr, prices.find? (fun p => p.componentId = g.1) = some pr ∧
      li = { componentId := g.1, quantity := g.2, unitPrice := pr.value,
             total := pr.value * (g.2 : ℚ), currency := pr.currency } := by
  unfold priceLineItem at h
  cases hf : prices.find? (fun p => p.componentId = g.1) with
  | none => rw [hf] at h; exact absurd h (by simp)
  | some pr =>
    rw [hf] at h
    exact ⟨pr, rfl, (Option.some.injEq _ _ ▸ h).symm⟩

theorem map_componentId_filterMap (grouped : List (String × Nat))
    (prices : List Price) :
    ((grouped.filterMap (priceLineItem prices)).map (fun li => li.componentId)) =
      (grouped.filter (fun g => (priceLineItem prices g).isSome)).map Prod.fst := by
  induction grouped with
  | nil => rfl
  | cons g tl ih =>
    cases hf : priceLineItem prices g with
    | none => simp [List.filterMap_cons, List.filter_cons, hf, ih]
    | some li =>
      obtain ⟨pr, -, hli⟩ := priceLineItem_some prices g li hf
      simp [List.filterMap_cons, List.filter_cons, hf, ih, hli]

theorem foldl_add_total (l : List LineItem) (a : ℚ) :
    l.foldl (fun t li => t + li.total) a = a + (l.map (fun li => li.total)).sum := by
  induction l generalizing a with
  | nil => simp
  | cons x xs ih => simp [ih, add_assoc]

/-- C3. Line items group the resolved selected ids by occurrence count;
each priced distinct id gets exactly one line item with
`total = unitPrice × quantity`; unpriced ids get none; `totalPrice` is the
sum of the line-item totals. -/
theorem pricing_line_items_spec (build : Build) (components : List Component)
    (prices : List Price) (rpt : BuildReport)
    (h : generateBuildReport build components prices = Except.ok rpt) :
    (∀ li ∈ rpt.lineItems,
        li.quantity = ((getSelectedComponents build components).map
          (fun c => c.id)).count li.componentId ∧
        ∃ pr, prices.find? (fun p => p.componentId = li.componentId) = some pr ∧
          li.unitPrice = pr.value ∧ li.currency = pr.currency ∧
          li.total = li.unitPrice * (li.quantity : ℚ))
    ∧ (rpt.lineItems.map (fun li => li.componentId)).Nodup
    ∧ (∀ id ∈ (getSelectedComponents build components).map (fun c => c.id),
        (prices.find? (fun p => p.componentId = id)).isSome →
        ∃ li ∈ rpt.lineItems, li.componentId = id)
    ∧ (∀ id, prices.find? (fun p => p.componentId = id) = none →
        ∀ li ∈ rpt.lineItems, li.componentId ≠ id)
    ∧ rpt.totalPrice = (rpt.lineItems.map (fun li => li.total)).sum := by
  obtain ⟨-, -, htp, hli, -, -, -⟩ :=
    generateBuildReport_ok build components prices rpt h
  have hitems : rpt.lineItems =
      (groupCounts ((getSelectedComponents build components).map
        (fun c => c.id))).filterMap (priceLineItem prices) := hli
  have htot : rpt.totalPrice =
      rpt.lineItems.foldl (fun t li => t + li.total) 0 := by
    rw [hli]; exact htp
  obtain ⟨hnd, hcnt, hcov⟩ :=
    groupCounts_spec ((getSelectedComponents build components).map (fun c => c.id))
  refine ⟨?_, ?_, ?_, ?_, ?_⟩
  · intro li hmem
    rw [hitems] at hmem
    obtain ⟨g, hg, hsome⟩ := List.mem_filterMap.mp hmem
    obtain ⟨pr, hpr, hdef⟩ := priceLineItem_some prices g li hsome
    subst hdef
    exact ⟨hcnt g hg, pr, hpr, rfl, rfl, rfl⟩
  · rw [hitems, map_componentId_filterMap]
    exact hnd.sublist (List.Sublist.map _ (List.filter_sublist _))
  · intro id hid hsome
    obtain ⟨g, hg, hgid⟩ := List.mem_map.mp (hcov id hid)
    have : (priceLineItem prices g).isSome := by
      unfold priceLineItem
      rw [hgid]
      cases hf : prices.find? (fun p => p.componentId = id) with
      | none => rw [hf] at hsome; simp at hsome
      | some pr => simp
    obtain ⟨li, hli2⟩ := Option.isSome_iff_exists.mp this
    refine ⟨li, ?_, ?_⟩
    · rw [hitems]
      exact List.mem_filterMap.mpr ⟨g, hg, hli2⟩
    · obtain ⟨pr, -, hdef⟩ := priceLineItem_some prices g li hli2
      rw [hdef]
      exact hgid
  · intro id hnone li hmem hid
    rw [hitems] at hmem
    obtain ⟨g, hg, hsome⟩ := List.mem_filterMap.mp hmem
    obtain ⟨pr, hpr, hdef⟩ := priceLineItem_some prices g li hsome
    rw [hdef] at hid
    simp only at hid
    rw [hid] at hpr
    rw [hnone] at hpr
    exact Option.noConfusion hpr
  · rw [htot, foldl_add_total, zero_add]

theorem mapMExcept_ok_of_all {α β : Type} (f : α → Except Unit β) (l : List α)
    (h : ∀ x ∈ l, ∃ y, f x = .ok y) : ∃ ys, mapMExcept f l = .ok ys := by
  induction l with
  | nil => exact ⟨[], rfl⟩
  | cons x xs ih =>
    obtain ⟨y, hy⟩ := h x (by simp)
    obtain ⟨ys, hys⟩ := ih (fun z hz => h z (by simp [hz]))
    exact ⟨y :: ys, by
      simp [mapMExcept, hy, hys, bind, Except.bind, pure, Except.pure]⟩

/-- When no case slot resolves, no recommendation strategy can throw. -/
theorem recsForIssue_ok (build : Build) (components : List Component)
    (issue : RuleResult) (h : findById components build.pcCase = none) :
    ∃ l, recsForIssue build components issue = .ok l := by
  unfold recsForIssue
  split_ifs with h1 h2 h3 <;> try exact ⟨_, rfl⟩
  rcases hmb : findById components build.motherboard with _ | mb
  · exact ⟨[], by unfold recommendFormFactorFix; rw [hmb]⟩
  · exact ⟨[], by unfold recommendFormFactorFix; rw [hmb, h]⟩

/-- When no case slot resolves, the report pipeline cannot throw. -/
theorem generateBuildReport_ok_exists (build : Build)
    (components : List Component) (prices : List Price)
    (h : findById components build.pcCase = none) :
    ∃ rpt, generateBuildReport build components prices = Except.ok rpt := by
  obtain ⟨ls, hls⟩ := mapMExcept_ok_of_all (recsForIssue build components)
    (checkCompatibility build components ++ checkBalance build components)
    (fun issue _ => recsForIssue_ok build components issue h)
  refine ⟨{ totalPrice := (calculatePricing (getSelectedComponents build components) prices).1
            lineItems := (calculatePricing (getSelectedComponents build components) prices).2
            errors := checkCompatibility build components
            warnings := checkBalance build components
            recommendations := ls.flatten
            summary := generateSummary build (checkCompatibility build components)
              (checkBalance build components)
              (calculatePricing (getSelectedComponents build components) prices).1
            fitment := [] }, ?_⟩
  unfold generateBuildReport generateRecommendations
  dsimp only
  rw [hls]
  simp [bind, Except.bind, pure, Except.pure]

def quadBuild : Build :=
  { ram := ["ram-1", "ram-1", "ram-1", "ram-1"], meta := { target := .mixed } }

def quadPrice : Price :=
  { componentId := "ram-1", value := 70, currency := .usd, source := .manual,
    updatedAt := "2024-01-01" }

/-- Witness for C3: four copies of one RAM stick at unit price 70 yield a
single line item with quantity 4 and total 280. -/
theorem pricing_line_items_spec_witness :
    ∃ rpt, generateBuildReport quadBuild [ramStick] [quadPrice] = Except.ok rpt ∧
      (∃ li ∈ rpt.lineItems, li.componentId = "ram-1" ∧ li.quantity = 4 ∧
        li.unitPrice = 70 ∧ li.total = 280) ∧
      (rpt.lineItems.map (fun li => li.componentId)).Nodup ∧
      rpt.totalPrice = (rpt.lineItems.map (fun li => li.total)).sum := by
  obtain ⟨rpt, hrpt⟩ :=
    generateBuildReport_ok_exists quadBuild [ramStick] [quadPrice] rfl
  have hth := pricing_line_items_spec quadBuild [ramStick] [quadPrice] rpt hrpt
  have hid : "ram-1" ∈ (getSelectedComponents quadBuild [ramStick]).map
      (fun c => c.id) := by decide
  have hps : (([quadPrice] : List Price).find?
      (fun p => p.componentId = "ram-1")).isSome := by decide
  obtain ⟨li, hmem, hcid⟩ := hth.2.2.1 "ram-1" hid hps
  obtain ⟨hqty, pr, hpr, hup, hcur, htotal⟩ := hth.1 li hmem
  have hqty4 : li.quantity = 4 := by
    rw [hqty, hcid]
    decide
  have hfind : (([quadPrice] : List Price).find?
      (fun p => p.componentId = "ram-1")) = some quadPrice := rfl
  have hpr70 : pr = quadPrice := by
    rw [hcid, hfind] at hpr
    exact (Option.some.injEq _ _ ▸ hpr).symm
  refine ⟨rpt, hrpt, ⟨li, hmem, hcid, hqty4, ?_, ?_⟩, hth.2.1, hth.2.2.2.2⟩
  · rw [hup, hpr70]
    rfl
  · rw [htotal, hup, hpr70, hqty4]
    norm_num [quadPrice]

/-! ## C7: every rule is a no-op when a needed part is missing, unresolved
or fails its tagged-union guard -/

/-- C7. Part 1: each of the seven rules returns no finding when a needed
getter comes back empty. Part 2: each singular-slot getter comes back
empty in each of the three degraded situations (slot unfilled, id
unresolved, specs variant failing the tagged-union check), and the list
getters drop unresolved or mistyped entries to the point of emptiness. -/
theorem rules_noop_on_missing_parts (build : Build) (components : List Component) :
    ((getCPU build components = none ∨ getMotherboard build components = none) →
      socketCompatibilityRule.check build components = none)
    ∧ ((getMotherboard build components = none ∨ getRAM build components = []) →
      ramTypeCompatibilityRule.check build components = none)
    ∧ ((getMotherboard build components = none ∨ getCase build components = none) →
      formFactorCompatibilityRule.check build components = none)
    ∧ ((getGPU build components = none ∨ getCase build components = none) →
      gpuLengthCompatibilityRule.check build components = none)
    ∧ (getPSU build components = none →
      psuWattageRule.check build components = none)
    ∧ ((getMotherboard build components = none ∨ getRAM build components = []) →
      ramSlotsRule.check build components = none)
    ∧ ((getCPU build components = none ∨ getCooler build components = none) →
      coolerCompatibilityRule.check build components = none)
    ∧ (truthy build.cpu = none → getCPU build components = none)
    ∧ (∀ id, truthy build.cpu = some id →
        components.find? (fun c => c.id = id) = none →
        getCPU build components = none)
    ∧ (∀ id comp, truthy build.cpu = some id →
        components.find? (fun c => c.id = id) = some comp →
        (∀ s, comp.specs ≠ ComponentSpecs.cpu s) →
        getCPU build components = none)
    ∧ (truthy build.gpu = none → getGPU build components = none)
    ∧ (∀ id, truthy build.gpu = some id →
        components.find? (fun c => c.id = id) = none →
        getGPU build components = none)
    ∧ (∀ id comp, truthy build.gpu = some id →
        components.find? (fun c => c.id = id) = some comp →
        (∀ s, comp.specs ≠ ComponentSpecs.gpu s) →
        getGPU build components = none)
    ∧ (truthy build.motherboard = none → getMotherboard build components = none)
    ∧ (∀ id, truthy build.motherboard = some id →
        components.find? (fun c => c.id = id) = none →
        getMotherboard build components = none)
    ∧ (∀ id comp, truthy build.motherboard = some id →
        components.find? (fun c => c.id = id) = some comp →
        (∀ s, comp.specs ≠ ComponentSpecs.motherboard s) →
        getMotherboard build components = none)
    ∧ (truthy build.cooler = none → getCooler build components = none)
    ∧ (∀ id, truthy build.cooler = some id →
        components.find? (fun c => c.id = id) = none →
        getCooler build components = none)
    ∧ (∀ id comp, truthy build.cooler = some id →
        components.find? (fun c => c.id = id) = some comp →
        (∀ s, comp.specs ≠ ComponentSpecs.cooler s) →
        getCooler build components = none)
    ∧ (truthy build.pcCase = none → getCase build components = none)
    ∧ (∀ id, truthy build.pcCase = some id →
        components.find? (fun c => c.id = id) = none →
        getCase build components = none)
    ∧ (∀ id comp, truthy build.pcCase = some id →
        components.find? (fun c => c.id = id) = some comp →
        (∀ s, comp.specs ≠ ComponentSpecs.pcCase s) →
        getCase build components = none)
    ∧ (truthy build.psu = none → getPSU build components = none)
    ∧ (∀ id, truthy build.psu = some id →
        components.find? (fun c => c.id = id) = none →
        getPSU build components = none)
    ∧ (∀ id comp, truthy build.psu = some id →
        components.find? (fun c => c.id = id) = some comp →
        (∀ s, comp.specs ≠ ComponentSpecs.psu s) →
        getPSU build components = none)
    ∧ ((∀ id ∈ build.ram,
        components.find? (fun c => c.id = id) = none ∨
        ∃ comp, components.find? (fun c => c.id = id) = some comp ∧
          ∀ s, comp.specs ≠ ComponentSpecs.ram s) →
        getRAM build components = [])
    ∧ ((∀ id ∈ build.storage,
        components.find? (fun c => c.id = id) = none ∨
        ∃ comp, components.find? (fun c => c.id = id) = some comp ∧
          ∀ s, comp.specs ≠ ComponentSpecs.storage s) →
        getStorage build components = []) := by
  refine ⟨?_, ?_, ?_, ?_, ?_, ?_, ?_, ?_, ?_, ?_, ?_, ?_, ?_, ?_, ?_, ?_, ?_,
    ?_, ?_, ?_, ?_, ?_, ?_, ?_, ?_, ?_, ?_⟩
  · rintro (h | h)
    · show (match getCPU build components, getMotherboard build components with
        | some cpu, some motherboard => _ | _, _ => none) = none
      rw [h]
    · rcases hc : getCPU build components with _ | cpu <;>
        · show (match getCPU build components, getMotherboard build components with
            | some cpu, some motherboard => _ | _, _ => none) = none
          rw [hc, h]
  · rintro (h | h)
    · show (match getMotherboard build components, getRAM build components with
        | some motherboard, rams => _ | none, _ => none) = none
      rw [h]
    · rcases hm : getMotherboard build components with _ | mb <;>
        · show (match getMotherboard build components, getRAM build components with
            | some motherboard, rams => _ | none, _ => none) = none
          rw [hm, h]
          try rfl
  · rintro (h | h)
    · show (match getMotherboard build components, getCase build components with
        | some motherboard, some case_ => _ | _, _ => none) = none
      rw [h]
    · rcases hm : getMotherboard build components with _ | mb <;>
        · show (match getMotherboard build components, getCase build components with
            | some motherboard, some case_ => _ | _, _ => none) = none
          rw [hm, h]
  · rintro (h | h)
    · show (match getGPU build components, getCase build components with
        | some gpu, some case_ => _ | _, _ => none) = none
      rw [h]
    · rcases hg : getGPU build components with _ | g <;>
        · show (match getGPU build components, getCase build components with
            | some gpu, some case_ => _ | _, _ => none) = none
          rw [hg, h]
  · intro h
    rw [psuWattageRule_check_eq, h]
    split <;> rfl
  · rintro (h | h)
    · show (match getMotherboard build components, getRAM build components with
        | some motherboard, rams => _ | none, _ => none) = none
      rw [h]
    · rcases hm : getMotherboard build components with _ | mb <;>
        · show (match getMotherboard build components, getRAM build components with
            | some motherboard, rams => _ | none, _ => none) = none
          rw [hm, h]
          try rfl
  · rintro (h | h)
    · show (match getCPU build components, getCooler build components with
        | some cpu, some cooler => _ | _, _ => none) = none
      rw [h]
    · rcases hc : getCPU build components with _ | cpu <;>
        · show (match getCPU build components, getCooler build components with
            | some cpu, some cooler => _ | _, _ => none) = none
          rw [hc, h]
  · intro h
    unfold getCPU
    rw [h]
  · intro id h hf
    unfold getCPU
    rw [h]
    dsimp only
    rw [hf]
  · intro id comp h hf hs
    unfold getCPU
    rw [h]
    dsimp only
    rw [hf]
    dsimp only
    cases hsp : comp.specs <;>
      first
      | exact absurd hsp (hs _)
      | rfl
  · intro h
    unfold getGPU
    rw [h]
  · intro id h hf
    unfold getGPU
    rw [h]
    dsimp only
    rw [hf]
  · intro id comp h hf hs
    unfold getGPU
    rw [h]
    dsimp only
    rw [hf]
    dsimp only
    cases hsp : comp.specs <;>
      first
      | exact absurd hsp (hs _)
      | rfl
  · intro h
    unfold getMotherboard
    rw [h]
  · intro id h hf
    unfold getMotherboard
    rw [h]
    dsimp only
    rw [hf]
  · intro id comp h hf hs
    unfold getMotherboard
    rw [h]
    dsimp only
    rw [hf]
    dsimp only
    cases hsp : comp.specs <;>
      first
      | exact absurd hsp (hs _)
      | rfl
  · intro h
    unfold getCooler
    rw [h]
  · intro id h hf
    unfold getCooler
    rw [h]
    dsimp only
    rw [hf]
  · intro id comp h hf hs
    unfold getCooler
    rw [h]
    dsimp only
    rw [hf]
    dsimp only
    cases hsp : comp.specs <;>
      first
      | exact absurd hsp (hs _)
      | rfl
  · intro h
    unfold getCase
    rw [h]
  · intro id h hf
    unfold getCase
    rw [h]
    dsimp only
    rw [hf]
  · intro id comp h hf hs
    unfold getCase
    rw [h]
    dsimp only
    rw [hf]
    dsimp only
    cases hsp : comp.specs <;>
      first
      | exact absurd hsp (hs _)
      | rfl
  · intro h
    unfold getPSU
    rw [h]
  · intro id h hf
    unfold getPSU
    rw [h]
    dsimp only
    rw [hf]
  · intro id comp h hf hs
    unfold getPSU
    rw [h]
    dsimp only
    rw [hf]
    dsimp only
    cases hsp : comp.specs <;>
      first
      | exact absurd hsp (hs _)
      | rfl
  · intro h
    unfold getRAM
    rw [List.filterMap_eq_nil_iff]
    intro id hid
    rcases h id hid with hf | ⟨comp, hf, hs⟩
    · rw [hf]
    · rw [hf]
      dsimp only
      cases hsp : comp.specs <;>
        first
        | exact absurd hsp (hs _)
        | rfl
  · intro h
    unfold getStorage
    rw [List.filterMap_eq_nil_iff]
    intro id hid
    rcases h id hid with hf | ⟨comp, hf, hs⟩
    · rw [hf]
    · rw [hf]
      dsimp only
      cases hsp : comp.specs <;>
        first
        | exact absurd hsp (hs _)
        | rfl

/-- Witness for C7: on the empty build and catalog, every rule no-ops. -/
theorem rules_noop_on_missing_parts_witness :
    socketCompatibilityRule.check emptyBuild [] = none ∧
    ramTypeCompatibilityRule.check emptyBuild [] = none ∧
    formFactorCompatibilityRule.check emptyBuild [] = none ∧
    gpuLengthCompatibilityRule.check emptyBuild [] = none ∧
    psuWattageRule.check emptyBuild [] = none ∧
    ramSlotsRule.check emptyBuild [] = none ∧
    coolerCompatibilityRule.check emptyBuild [] = none := by
  have h := rules_noop_on_missing_parts emptyBuild []
  exact ⟨h.1 (Or.inl rfl), h.2.1 (Or.inl rfl), h.2.2.1 (Or.inl rfl),
    h.2.2.2.1 (Or.inl rfl), h.2.2.2.2.1 rfl, h.2.2.2.2.2.1 (Or.inl rfl),
    h.2.2.2.2.2.2.1 (Or.inl rfl)⟩

/-! ## C9: the `psu-close` warning-severity finding travels through the
error channel -/

theorem recsForIssue_psu_close (build : Build) (components : List Component)
    (issue : RuleResult) (h : issue.code = "psu-close") :
    recsForIssue build components issue = .ok [] := by
  unfold recsForIssue
  simp [h]

theorem recommendCpuSocketFix_reasonCode (build : Build)
    (components : List Component) (issue : RuleResult) :
    ∀ rec ∈ recommendCpuSocketFix build components issue,
      rec.reasonCode = issue.code := by
  intro rec hrec
  unfold recommendCpuSocketFix at hrec
  split at hrec
  · dsimp only at hrec
    rcases List.mem_append.mp hrec with h1 | h1
    · split at h1
      · rw [List.mem_singleton] at h1; subst h1; rfl
      · simp at h1
    · split at h1
      · rw [List.mem_singleton] at h1; subst h1; rfl
      · simp at h1
  · simp at hrec

theorem recommendRamTypeFix_reasonCode (build : Build)
    (components : List Component) (issue : RuleResult) :
    ∀ rec ∈ recommendRamTypeFix build components issue,
      rec.reasonCode = issue.code := by
  intro rec hrec
  unfold recommendRamTypeFix at hrec
  split at hrec
  · simp at hrec
  · dsimp only at hrec
    split at hrec
    · rw [List.mem_singleton] at hrec; subst hrec; rfl
    · simp at hrec

theorem recommendFormFactorFix_reasonCode (build : Build)
    (components : List Component) (issue : RuleResult)
    (l : List Recommendation)
    (h : recommendFormFactorFix build components issue = .ok l) :
    ∀ rec ∈ l, rec.reasonCode = issue.code := by
  unfold recommendFormFactorFix at h
  split at h
  · dsimp only at h
    cases hf : exceptFilter (fun c =>
        if c.type = .pcCase then
          jsIncludesU c.specs.formFactorCompatibilityA
            (Component.specs _).formFactorA
        else .ok false) components with
    | error e =>
      rw [hf] at h
      simp [bind, Except.bind] at h
    | ok filtered =>
      rw [hf] at h
      simp only [bind, Except.bind, pure, Except.pure, Except.ok.injEq] at h
      subst h
      intro rec hrec
      split at hrec
      · rw [List.mem_singleton] at hrec; subst hrec; rfl
      · simp at hrec
  · simp only [Except.ok.injEq] at h
    subst h
    intro rec hrec
    simp at hrec

theorem recommendGpuLengthFix_reasonCode (build : Build)
    (components : List Component) (issue : RuleResult) :
    ∀ rec ∈ recommendGpuLengthFix build components issue,
      rec.reasonCode = issue.code := by
  intro rec hrec
  unfold recommendGpuLengthFix at hrec
  split at hrec
  · dsimp only at hrec
    rcases List.mem_append.mp hrec with h1 | h1
    · split at h1
      · rw [List.mem_singleton] at h1; subst h1; rfl
      · simp at h1
    · split at h1
      · rw [List.mem_singleton] at h1; subst h1; rfl
      · simp at h1
  · simp at hrec

theorem recommendPsuUpgrade_reasonCode (build : Build)
    (components : List Component) (issue : RuleResult) :
    ∀ rec ∈ recommendPsuUpgrade build components issue,
      rec.reasonCode = issue.code := by
  intro rec hrec
  unfold recommendPsuUpgrade at hrec
  split at hrec
  · simp at hrec
  · dsimp only at hrec
    split at hrec
    · rw [List.mem_singleton] at hrec; subst hrec; rfl
    · simp at hrec

theorem recommendCpuGpuBalance_reasonCode (build : Build)
    (components : List Component) (issue : RuleResult) :
    ∀ rec ∈ recommendCpuGpuBalance build components issue,
      rec.reasonCode = issue.code := by
  intro rec hrec
  unfold recommendCpuGpuBalance at hrec
  split at hrec
  · dsimp only at hrec
    rcases List.mem_append.mp hrec with h1 | h1
    · split at h1
      · rw [List.mem_singleton] at h1; subst h1; rfl
      · simp at h1
    · split at h1
      · rw [List.mem_singleton] at h1; subst h1; rfl
      · simp at h1
  · simp at hrec

theorem recommendMoreRam_reasonCode (build : Build)
    (components : List Component) (issue : RuleResult) :
    ∀ rec ∈ recommendMoreRam build components issue,
      rec.reasonCode = issue.code := by
  intro rec hrec
  unfold recommendMoreRam at hrec
  dsimp only at hrec
  split at hrec <;> split at hrec <;>
    first
    | (rw [List.mem_singleton] at hrec; subst hrec; rfl)
    | simp at hrec

theorem recommendAddSSD_reasonCode (build : Build)
    (components : List Component) (issue : RuleResult) :
    ∀ rec ∈ recommendAddSSD build components issue,
      rec.reasonCode = issue.code := by
  intro rec hrec
  unfold recommendAddSSD at hrec
  dsimp only at hrec
  split at hrec
  · rw [List.mem_singleton] at hrec; subst hrec; rfl
  · simp at hrec

/-- Every generated recommendation carries its originating issue's code. -/
theorem recsForIssue_reasonCode (build : Build) (components : List Component)
    (issue : RuleResult) (l : List Recommendation)
    (h : recsForIssue build components issue = .ok l) :
    ∀ rec ∈ l, rec.reasonCode = issue.code := by
  unfold recsForIssue at h
  split_ifs at h
  all_goals
    first
    | (exact recommendFormFactorFix_reasonCode build components issue l h)
    | (simp only [Except.ok.injEq] at h
       subst h
       first
       | exact recommendCpuSocketFix_reasonCode build components issue
       | exact recommendRamTypeFix_reasonCode build components issue
       | exact recommendGpuLengthFix_reasonCode build components issue
       | exact recommendPsuUpgrade_reasonCode build components issue
       | exact recommendCpuGpuBalance_reasonCode build components issue
       | exact recommendMoreRam_reasonCode build components issue
       | exact recommendAddSSD_reasonCode build components issue
       | (intro rec hrec; simp at hrec))

theorem mapMExcept_ok_mem {α β : Type} (f : α → Except Unit β) (l : List α)
    (ys : List β) (h : mapMExcept f l = .ok ys) :
    ∀ y ∈ ys, ∃ x ∈ l, f x = .ok y := by
  induction l generalizing ys with
  | nil =>
    simp only [mapMExcept, Except.ok.injEq] at h
    subst h
    intro y hy
    simp at hy
  | cons x xs ih =>
    unfold mapMExcept at h
    cases hx : f x with
    | error e =>
      rw [hx] at h
      simp [bind, Except.bind] at h
    | ok y0 =>
      rw [hx] at h
      cases hxs : mapMExcept f xs with
      | error e =>
        rw [hxs] at h
        simp [bind, Except.bind] at h
      | ok ys0 =>
        rw [hxs] at h
        simp only [bind, Except.bind, pure, Except.pure, Except.ok.injEq] at h
        subst h
        intro y hy
        rcases List.mem_cons.mp hy with rfl | hy'
        · exact ⟨x, by simp, hx⟩
        · obtain ⟨x', hx', hfx'⟩ := ih ys0 hxs y hy'
          exact ⟨x', by simp [hx'], hfx'⟩

theorem generateRecommendations_ok_mem (build : Build)
    (components : List Component) (errors warnings : List RuleResult)
    (recs : List Recommendation)
    (h : generateRecommendations build components errors warnings = .ok recs) :
    ∀ rec ∈ recs, ∃ issue ∈ errors ++ warnings, ∃ l,
      recsForIssue build components issue = .ok l ∧ rec ∈ l := by
  unfold generateRecommendations at h
  dsimp only at h
  cases hm : mapMExcept (recsForIssue build components) (errors ++ warnings) with
  | error e =>
    rw [hm] at h
    simp [bind, Except.bind] at h
  | ok lists =>
    rw [hm] at h
    simp only [bind, Except.bind, pure, Except.pure, Except.ok.injEq] at h
    subst h
    intro rec hrec
    obtain ⟨l, hl, hrecl⟩ := List.mem_flatten.mp hrec
    obtain ⟨issue, hissue, hok⟩ := mapMExcept_ok_mem _ _ _ hm l hl
    exact ⟨issue, hissue, l, hok, hrecl⟩

/-- C9. A `psu-close` finding has warning severity yet is returned by
`checkCompatibility`, so the report places it among `errors`, counts it in
the compatibility-error clause of the summary, keeps it out of the balance
warnings, and generates no recommendation for it. -/
theorem psu_close_reported_as_error (build : Build) (components : List Component)
    (prices : List Price) (rpt : BuildReport) (r : RuleResult)
    (h : generateBuildReport build components prices = Except.ok rpt)
    (hr : psuWattageRule.check build components = some r)
    (hc : r.code = "psu-close") :
    r.severity = Severity.warning ∧ r ∈ rpt.errors ∧
    (∀ w ∈ rpt.warnings, w.code ≠ "psu-close") ∧
    (∀ rec ∈ rpt.recommendations, rec.reasonCode ≠ "psu-close") ∧
    rpt.errors ≠ [] ∧
    (∃ tail, rpt.summary = "Build for " ++ build.meta.target.str ++ " with " ++
      numStr rpt.totalPrice ++ " USD total." ++
      (" " ++ toString rpt.errors.length ++ " compatibility error(s) found.") ++
      tail) := by
  obtain ⟨he, hw, htp, -, hs, hrecs, -⟩ :=
    generateBuildReport_ok build components prices rpt h
  have hsev : r.severity = Severity.warning := by
    rw [psuWattageRule_check_eq] at hr
    split at hr
    · simp at hr
    · split at hr
      · simp at hr
      · split at hr
        · simp only [Option.some.injEq] at hr
          subst hr
          simp at hc
        · split at hr
          · simp only [Option.some.injEq] at hr
            subst hr
            rfl
          · simp at hr
  have hmem : r ∈ rpt.errors := by
    rw [he, checkCompatibility_eq]
    simp [hr]
  have hne : (checkCompatibility build components).length ≠ 0 := by
    intro hh
    have : rpt.errors = [] := by
      rw [he]
      exact List.length_eq_zero.mp hh
    exact (List.ne_nil_of_mem hmem) this
  refine ⟨hsev, hmem, ?_, ?_, List.ne_nil_of_mem hmem, ?_⟩
  · intro w hw2
    rw [hw] at hw2
    rcases checkBalance_codes build components w hw2 with h1 | h1 | h1 | h1 | h1 <;>
      simp [h1]
  · obtain ⟨recs, hok, hrr⟩ := hrecs
    intro rec hrec
    rw [hrr] at hrec
    obtain ⟨issue, hissue, l, hl, hrecl⟩ :=
      generateRecommendations_ok_mem _ _ _ _ _ hok rec hrec
    by_cases hic : issue.code = "psu-close"
    · rw [recsForIssue_psu_close _ _ _ hic] at hl
      simp only [Except.ok.injEq] at hl
      subst hl
      simp at hrecl
    · rw [recsForIssue_reasonCode _ _ _ _ hl rec hrecl]
      exact hic
  · have hepos : 0 < (checkCompatibility build components).length :=
      Nat.pos_of_ne_zero hne
    have hand : ¬ ((checkCompatibility build components).length = 0 ∧
        (checkBalance build components).length = 0) := fun hh => hne hh.1
    by_cases hw0 : 0 < (checkBalance build components).length
    · refine ⟨" " ++ toString (checkBalance build components).length ++
        " balance warning(s).", ?_⟩
      rw [hs, htp, he]
      unfold generateSummary
      dsimp only
      rw [if_pos hepos, if_pos hw0, if_neg hand]
    · refine ⟨"", ?_⟩
      rw [hs, htp, he]
      unfold generateSummary
      dsimp only
      rw [if_pos hepos, if_neg hw0, if_neg hand, String.append_empty]

/-- Witness for C9 at the `psu-close` demo build. -/
theorem psu_close_reported_as_error_witness :
    ∃ rpt r, generateBuildReport psuDemoBuild psuDemoCatalog [] = Except.ok rpt ∧
      psuWattageRule.check psuDemoBuild psuDemoCatalog = some r ∧
      r.code = "psu-close" ∧ r.severity = Severity.warning ∧ r ∈ rpt.errors ∧
      (∀ w ∈ rpt.warnings, w.code ≠ "psu-close") ∧
      (∀ rec ∈ rpt.recommendations, rec.reasonCode ≠ "psu-close") := by
  obtain ⟨rpt, hrpt⟩ :=
    generateBuildReport_ok_exists psuDemoBuild psuDemoCatalog [] rfl
  have hcheck : ∃ r, psuWattageRule.check psuDemoBuild psuDemoCatalog = some r ∧
      r.code = "psu-close" := by
    rw [psuWattageRule_check_eq]
    rw [show getPSU psuDemoBuild psuDemoCatalog = some (smallPSU, smallPSUSpec)
      from rfl]
    rw [if_neg (fun hh => absurd hh.2.2.1 (by decide))]
    dsimp only
    rw [if_neg (by
      rw [show getCPU psuDemoBuild psuDemoCatalog = none from rfl,
        show getGPU psuDemoBuild psuDemoCatalog = none from rfl,
        show getRAM psuDemoBuild psuDemoCatalog = [(ramStick, ramStickSpec)] from rfl,
        show getStorage psuDemoBuild psuDemoCatalog = [] from rfl]
      norm_num [calculateEstimatedWatt, smallPSUSpec])]
    rw [if_pos (by
      rw [show getCPU psuDemoBuild psuDemoCatalog = none from rfl,
        show getGPU psuDemoBuild psuDemoCatalog = none from rfl,
        show getRAM psuDemoBuild psuDemoCatalog = [(ramStick, ramStickSpec)] from rfl,
        show getStorage psuDemoBuild psuDemoCatalog = [] from rfl]
      norm_num [calculateEstimatedWatt, smallPSUSpec])]
    exact ⟨_, rfl, rfl⟩
  obtain ⟨r, hr, hcode⟩ := hcheck
  have hth := psu_close_reported_as_error psuDemoBuild psuDemoCatalog [] rpt r
    hrpt hr hcode
  exact ⟨rpt, r, hrpt, hr, hcode, hth.1, hth.2.1, hth.2.2.1, hth.2.2.2.1⟩

/-! ## C1: a throwing rule aborts the whole `execute` batch (there is no
try/catch in `RuleEngine.execute`) -/

def throwingRule : DynRule :=
  { id := "rule-throws", name := "Throwing Rule",
    check := fun _ _ => .error (), priority := 2, category := .compatibility,
    enabled := true }

def okFinding : RuleResult :=
  { code := "demo-finding", severity := .error, message := "m", reason := "rsn",
    affectedIds := [] }

def dynOkRule : DynRule :=
  { id := "rule-ok", name := "OK Rule",
    check := fun _ _ => .ok (some okFinding), priority := 1,
    category := .compatibility, enabled := true }

/-- Counterexample to C1: with a higher-priority throwing rule registered,
`execute` propagates the exception and returns no findings at all, although
the other enabled rule alone would contribute a finding. -/
theorem execute_throwing_rule_aborts_batch_cex :
    RuleEngineE.execute [throwingRule, dynOkRule] emptyBuild [] =
      Except.error () ∧
    RuleEngineE.execute [dynOkRule] emptyBuild [] =
      Except.ok [okFinding] :=
  ⟨rfl, rfl⟩

theorem mapMExcept_error_of_mem {α β : Type} (f : α → Except Unit β)
    (l : List α) (h : ∃ x ∈ l, f x = .error ()) :
    mapMExcept f l = .error () := by
  induction l with
  | nil => simp at h
  | cons x xs ih =>
    unfold mapMExcept
    cases hx : f x with
    | error e =>
      cases e
      simp [bind, Except.bind]
    | ok y =>
      obtain ⟨z, hz, hfz⟩ := h
      rcases List.mem_cons.mp hz with rfl | hz'
      · rw [hx] at hfz
        exact Except.noConfusion hfz
      · rw [ih ⟨z, hz', hfz⟩]
        simp [bind, Except.bind]

/-- C1 (amended). When an enabled rule's `check` raises, `execute`
propagates the exception instead of isolating it: it returns the error and
no findings, so the remaining rules' findings are lost and callers like
`checkCompatibility` / `generateBuildReport` would see the exception. -/
theorem execute_propagates_rule_exception (rules : List DynRule) (build : Build)
    (components : List Component)
    (h : ∃ rl ∈ rules, rl.enabled = true ∧
      rl.check build components = .error ()) :
    RuleEngineE.execute rules build components = Except.error () := by
  obtain ⟨rl, hmem, hen, herr⟩ := h
  have hmem2 : rl ∈ sortByPrioDesc (fun r => r.priority)
      (rules.filter (fun r => r.enabled)) := by
    rw [(sortByPrioDesc_perm (fun r : DynRule => r.priority)
      (rules.filter (fun r => r.enabled))).mem_iff]
    exact List.mem_filter.mpr ⟨hmem, by simp [hen]⟩
  have hmap := mapMExcept_error_of_mem (fun r => r.check build components) _
    ⟨rl, hmem2, herr⟩
  unfold RuleEngineE.execute
  rw [hmap]
  simp [bind, Except.bind]

/-- Witness for the amended C1. -/
theorem execute_propagates_rule_exception_witness :
    RuleEngineE.execute [throwingRule, dynOkRule] emptyBuild [] =
      Except.error () :=
  execute_propagates_rule_exception [throwingRule, dynOkRule] emptyBuild []
    ⟨throwingRule, by simp, rfl, rfl⟩

/-! ## C10: registry-based vs monolithic `checkCompatibility` -/

/-- The observable part of a finding: code, severity and affected ids
(the message/reason text differs between the two implementations). -/
def obs (r : RuleResult) : String × Severity × List String :=
  (r.code, r.severity, r.affectedIds)

theorem getCPU_eq_bind (build : Build) (components : List Component) :
    getCPU build components = (resolveSlot build.cpu components).bind
      (fun comp => match comp.specs with
        | ComponentSpecs.cpu s => some (comp, s)
        | _ => none) := by
  unfold getCPU resolveSlot
  cases truthy build.cpu with
  | none => rfl
  | some id =>
    dsimp only
    rcases hf : components.find? (fun c => c.id = id) with _ | c <;> rw [hf] <;> rfl

theorem getGPU_eq_bind (build : Build) (components : List Component) :
    getGPU build components = (resolveSlot build.gpu components).bind
      (fun comp => match comp.specs with
        | ComponentSpecs.gpu s => some (comp, s)
        | _ => none) := by
  unfold getGPU resolveSlot
  cases truthy build.gpu with
  | none => rfl
  | some id =>
    dsimp only
    rcases hf : components.find? (fun c => c.id = id) with _ | c <;> rw [hf] <;> rfl

theorem getMotherboard_eq_bind (build : Build) (components : List Component) :
    getMotherboard build components = (resolveSlot build.motherboard components).bind
      (fun comp => match comp.specs with
        | ComponentSpecs.motherboard s => some (comp, s)
        | _ => none) := by
  unfold getMotherboard resolveSlot
  cases truthy build.motherboard with
  | none => rfl
  | some id =>
    dsimp only
    rcases hf : components.find? (fun c => c.id = id) with _ | c <;> rw [hf] <;> rfl

theorem getCooler_eq_bind (build : Build) (components : List Component) :
    getCooler build components = (resolveSlot build.cooler components).bind
      (fun comp => match comp.specs with
        | ComponentSpecs.cooler s => some (comp, s)
        | _ => none) := by
  unfold getCooler resolveSlot
  cases truthy build.cooler with
  | none => rfl
  | some id =>
    dsimp only
    rcases hf : components.find? (fun c => c.id = id) with _ | c <;> rw [hf] <;> rfl

theorem getCase_eq_bind (build : Build) (components : List Component) :
    getCase build components = (resolveSlot build.pcCase components).bind
      (fun comp => match comp.specs with
        | ComponentSpecs.pcCase s => some (comp, s)
        | _ => none) := by
  unfold getCase resolveSlot
  cases truthy build.pcCase with
  | none => rfl
  | some id =>
    dsimp only
    rcases hf : components.find? (fun c => c.id = id) with _ | c <;> rw [hf] <;> rfl

theorem getPSU_eq_bind (build : Build) (components : List Component) :
    getPSU build components = (resolveSlot build.psu components).bind
      (fun comp => match comp.specs with
        | ComponentSpecs.psu s => some (comp, s)
        | _ => none) := by
  unfold getPSU resolveSlot
  cases truthy build.psu with
  | none => rfl
  | some id =>
    dsimp only
    rcases hf : components.find? (fun c => c.id = id) with _ | c <;> rw [hf] <;> rfl

theorem getCPU_some_spec (build : Build) (components : List Component)
    (p : Component × CpuSpecs) (h : getCPU build components = some p) :
    p.1.specs = ComponentSpecs.cpu p.2 := by
  rw [getCPU_eq_bind] at h
  rcases hr : resolveSlot build.cpu components with _ | comp <;> rw [hr] at h
  · exact Option.noConfusion h
  · rw [Option.some_bind'] at h
    cases hsp : comp.specs <;> rw [hsp] at h <;> try exact Option.noConfusion h
    simp only [Option.some.injEq] at h
    rw [← h]
    exact hsp

theorem getGPU_some_spec (build : Build) (components : List Component)
    (p : Component × GpuSpecs) (h : getGPU build components = some p) :
    p.1.specs = ComponentSpecs.gpu p.2 := by
  rw [getGPU_eq_bind] at h
  rcases hr : resolveSlot build.gpu components with _ | comp <;> rw [hr] at h
  · exact Option.noConfusion h
  · rw [Option.some_bind'] at h
    cases hsp : comp.specs <;> rw [hsp] at h <;> try exact Option.noConfusion h
    simp only [Option.some.injEq] at h
    rw [← h]
    exact hsp

theorem getMotherboard_some_spec (build : Build) (components : List Component)
    (p : Component × MotherboardSpecs)
    (h : getMotherboard build components = some p) :
    p.1.specs = ComponentSpecs.motherboard p.2 := by
  rw [getMotherboard_eq_bind] at h
  rcases hr : resolveSlot build.motherboard components with _ | comp <;> rw [hr] at h
  · exact Option.noConfusion h
  · rw [Option.some_bind'] at h
    cases hsp : comp.specs <;> rw [hsp] at h <;> try exact Option.noConfusion h
    simp only [Option.some.injEq] at h
    rw [← h]
    exact hsp

theorem getCooler_some_spec (build : Build) (components : List Component)
    (p : Component × CoolerSpecs) (h : getCooler build components = some p) :
    p.1.specs = ComponentSpecs.cooler p.2 := by
  rw [getCooler_eq_bind] at h
  rcases hr : resolveSlot build.cooler components with _ | comp <;> rw [hr] at h
  · exact Option.noConfusion h
  · rw [Option.some_bind'] at h
    cases hsp : comp.specs <;> rw [hsp] at h <;> try exact Option.noConfusion h
    simp only [Option.some.injEq] at h
    rw [← h]
    exact hsp

theorem getCase_some_spec (build : Build) (components : List Component)
    (p : Component × CaseSpecs) (h : getCase build components = some p) :
    p.1.specs = ComponentSpecs.pcCase p.2 := by
  rw [getCase_eq_bind] at h
  rcases hr : resolveSlot build.pcCase components with _ | comp <;> rw [hr] at h
  · exact Option.noConfusion h
  · rw [Option.some_bind'] at h
    cases hsp : comp.specs <;> rw [hsp] at h <;> try exact Option.noConfusion h
    simp only [Option.some.injEq] at h
    rw [← h]
    exact hsp

theorem getPSU_some_spec (build : Build) (components : List Component)
    (p : Component × PsuSpecs) (h : getPSU build components = some p) :
    p.1.specs = ComponentSpecs.psu p.2 := by
  rw [getPSU_eq_bind] at h
  rcases hr : resolveSlot build.psu components with _ | comp <;> rw [hr] at h
  · exact Option.noConfusion h
  · rw [Option.some_bind'] at h
    cases hsp : comp.specs <;> rw [hsp] at h <;> try exact Option.noConfusion h
    simp only [Option.some.injEq] at h
    rw [← h]
    exact hsp

theorem getRAM_mem_spec (build : Build) (components : List Component) :
    ∀ p ∈ getRAM build components, p.1.specs = ComponentSpecs.ram p.2 := by
  intro p hp
  obtain ⟨id, -, hf⟩ := List.mem_filterMap.mp hp
  rcases hff : components.find? (fun c => c.id = id) with _ | c <;> rw [hff] at hf
  · exact Option.noConfusion hf
  · dsimp only at hf
    cases hsp : c.specs <;> rw [hsp] at hf <;> try exact Option.noConfusion hf
    simp only [Option.some.injEq] at hf
    rw [← hf]
    exact hsp

theorem getStorage_mem_spec (build : Build) (components : List Component) :
    ∀ p ∈ getStorage build components, p.1.specs = ComponentSpecs.storage p.2 := by
  intro p hp
  obtain ⟨id, -, hf⟩ := List.mem_filterMap.mp hp
  rcases hff : components.find? (fun c => c.id = id) with _ | c <;> rw [hff] at hf
  · exact Option.noConfusion hf
  · dsimp only at hf
    cases hsp : c.specs <;> rw [hsp] at hf <;> try exact Option.noConfusion hf
    simp only [Option.some.injEq] at hf
    rw [← hf]
    exact hsp

theorem socketRule_check_eq (build : Build) (components : List Component) :
    socketCompatibilityRule.check build components =
      (match getCPU build components, getMotherboard build components with
       | some cpu, some motherboard =>
         if cpu.2.socket ≠ motherboard.2.socket then
           some { code := "cpu-socket-mismatch"
                  severity := .error
                  message := "CPU socket " ++ cpu.2.socket ++ " ≠ MB socket " ++
                    motherboard.2.socket
                  reason := "Physical incompatibility - CPU and motherboard must have compatible sockets"
                  affectedIds := [cpu.1.id, motherboard.1.id] }
         else none
       | _, _ => none) := rfl

theorem ramTypeRule_check_eq (build : Build) (components : List Component) :
    ramTypeCompatibilityRule.check build components =
      (match getMotherboard build components, getRAM build components with
       | some motherboard, rams =>
         if rams.length = 0 then none
         else
           let incompatibleRams := rams.filter
             (fun r => r.2.ramType ≠ motherboard.2.ramType)
           if incompatibleRams.length > 0 then
             some { code := "ram-type-mismatch"
                    severity := .error
                    message := "RAM type incompatible with motherboard DDR type " ++
                      motherboard.2.ramType
                    reason := "RAM must be compatible with motherboard DDR generation"
                    affectedIds := motherboard.1.id ::
                      incompatibleRams.map (fun r => r.1.id) }
           else none
       | none, _ => none) := rfl

theorem formFactorRule_check_eq (build : Build) (components : List Component) :
    formFactorCompatibilityRule.check build components =
      (match getMotherboard build components, getCase build components with
       | some motherboard, some case_ =>
         if ¬ case_.2.formFactorCompatibility.contains motherboard.2.formFactor then
           some { code := "form-factor-incompatible"
                  severity := .error
                  message := "Motherboard form factor " ++ motherboard.2.formFactor ++
                    " not supported by case"
                  reason := "Case must support the motherboard form factor"
                  affectedIds := [motherboard.1.id, case_.1.id] }
         else none
       | _, _ => none) := rfl

theorem gpuLengthRule_check_eq (build : Build) (components : List Component) :
    gpuLengthCompatibilityRule.check build components =
      (match getGPU build components, getCase build components with
       | some gpu, some case_ =>
         if gpu.2.lengthMm > case_.2.maxGpuLengthMm then
           some { code := "gpu-length-exceeds"
                  severity := .error
                  message := "GPU length " ++ numStr gpu.2.lengthMm ++
                    "mm exceeds case max " ++ numStr case_.2.maxGpuLengthMm ++ "mm"
                  reason := "GPU must fit within the case dimensions"
                  affectedIds := [gpu.1.id, case_.1.id] }
         else none
       | _, _ => none) := rfl

theorem ramSlotsRule_check_eq (build : Build) (components : List Component) :
    ramSlotsRule.check build components =
      (match getMotherboard build components, getRAM build components with
       | some motherboard, rams =>
         if rams.length = 0 then none
         else if (rams.length : ℚ) > motherboard.2.ramSlots then
           some { code := "ram-slots-exceed"
                  severity := .error
                  message := "Too many RAM sticks (" ++ toString rams.length ++
                    ") for motherboard slots (" ++ numStr motherboard.2.ramSlots ++ ")"
                  reason := "Motherboard has limited RAM slots"
                  affectedIds := motherboard.1.id :: rams.map (fun r => r.1.id) }
         else none
       | none, _ => none) := rfl

theorem coolerRule_check_eq (build : Build) (components : List Component) :
    coolerCompatibilityRule.check build components =
      (match getCPU build components, getCooler build components with
       | some cpu, some cooler =>
         if ¬ cooler.2.socketCompatibility.contains cpu.2.socket then
           some { code := "cooler-incompatible"
                  severity := .error
                  message := "Cooler not compatible with CPU socket " ++ cpu.2.socket
                  reason := "Cooler must support the CPU socket"
                  affectedIds := [cooler.1.id, cpu.1.id] }
         else none
       | _, _ => none) := rfl

theorem socketRule_all_error (build : Build) (components : List Component) :
    ∀ r ∈ (socketCompatibilityRule.check build components).toList,
      r.severity = Severity.error := by
  intro r hr
  rw [socketRule_check_eq] at hr
  rcases hc : getCPU build components with _ | cp <;>
    rcases hm : getMotherboard build components with _ | mb <;>
      rw [hc, hm] at hr <;> dsimp only at hr
  · simp at hr
  · simp at hr
  · simp at hr
  · split at hr
    · simp only [Option.toList_some, List.mem_singleton] at hr
      subst hr
      rfl
    · simp at hr

theorem ramTypeRule_all_error (build : Build) (components : List Component) :
    ∀ r ∈ (ramTypeCompatibilityRule.check build components).toList,
      r.severity = Severity.error := by
  intro r hr
  rw [ramTypeRule_check_eq] at hr
  rcases hm : getMotherboard build components with _ | mb <;>
    rw [hm] at hr <;> dsimp only at hr
  · simp at hr
  · split at hr
    · simp at hr
    · split at hr
      · simp only [Option.toList_some, List.mem_singleton] at hr
        subst hr
        rfl
      · simp at hr

theorem formFactorRule_all_error (build : Build) (components : List Component) :
    ∀ r ∈ (formFactorCompatibilityRule.check build components).toList,
      r.severity = Severity.error := by
  intro r hr
  rw [formFactorRule_check_eq] at hr
  rcases hm : getMotherboard build components with _ | mb <;>
    rcases hk : getCase build components with _ | k <;>
      rw [hm, hk] at hr <;> dsimp only at hr
  · simp at hr
  · simp at hr
  · simp at hr
  · split at hr
    · simp only [Option.toList_some, List.mem_singleton] at hr
      subst hr
      rfl
    · simp at hr

theorem gpuLengthRule_all_error (build : Build) (components : List Component) :
    ∀ r ∈ (gpuLengthCompatibilityRule.check build components).toList,
      r.severity = Severity.error := by
  intro r hr
  rw [gpuLengthRule_check_eq] at hr
  rcases hg : getGPU build components with _ | g <;>
    rcases hk : getCase build components with _ | k <;>
      rw [hg, hk] at hr <;> dsimp only at hr
  · simp at hr
  · simp at hr
  · simp at hr
  · split at hr
    · simp only [Option.toList_some, List.mem_singleton] at hr
      subst hr
      rfl
    · simp at hr

theorem ramSlotsRule_all_error (build : Build) (components : List Component) :
    ∀ r ∈ (ramSlotsRule.check build components).toList,
      r.severity = Severity.error := by
  intro r hr
  rw [ramSlotsRule_check_eq] at hr
  rcases hm : getMotherboard build components with _ | mb <;>
    rw [hm] at hr <;> dsimp only at hr
  · simp at hr
  · split at hr
    · simp at hr
    · split at hr
      · simp only [Option.toList_some, List.mem_singleton] at hr
        subst hr
        rfl
      · simp at hr

theorem coolerRule_all_error (build : Build) (components : List Component) :
    ∀ r ∈ (coolerCompatibilityRule.check build components).toList,
      r.severity = Severity.error := by
  intro r hr
  rw [coolerRule_check_eq] at hr
  rcases hc : getCPU build components with _ | cp <;>
    rcases hk : getCooler build components with _ | k <;>
      rw [hc, hk] at hr <;> dsimp only at hr
  · simp at hr
  · simp at hr
  · simp at hr
  · split at hr
    · simp only [Option.toList_some, List.mem_singleton] at hr
      subst hr
      rfl
    · simp at hr

theorem socket_seg_obs (build : Build) (components : List Component)
    (hcpu : ∀ comp, resolveSlot build.cpu components = some comp →
      ∃ s, comp.specs = ComponentSpecs.cpu s)
    (hmb : ∀ comp, resolveSlot build.motherboard components = some comp →
      ∃ s, comp.specs = ComponentSpecs.motherboard s) :
    (monoSocketSeg (resolveSlot build.cpu components)
        (resolveSlot build.motherboard components)).map obs =
      ((socketCompatibilityRule.check build components).toList).map obs := by
  rw [socketRule_check_eq]
  rcases hrc : resolveSlot build.cpu components with _ | cpuC
  · have hg : getCPU build components = none := by
      rw [getCPU_eq_bind, hrc]; rfl
    rw [hg]
    rfl
  · obtain ⟨s, hs⟩ := hcpu cpuC hrc
    have hg : getCPU build components = some (cpuC, s) := by
      rw [getCPU_eq_bind, hrc, Option.some_bind', hs]
    rcases hrm : resolveSlot build.motherboard components with _ | mbC
    · have hgm : getMotherboard build components = none := by
        rw [getMotherboard_eq_bind, hrm]; rfl
      rw [hg, hgm]
      rfl
    · obtain ⟨t, ht⟩ := hmb mbC hrm
      have hgm : getMotherboard build components = some (mbC, t) := by
        rw [getMotherboard_eq_bind, hrm, Option.some_bind', ht]
      rw [hg, hgm]
      unfold monoSocketSeg
      dsimp only
      rw [hs, ht]
      simp only [ComponentSpecs.socketA]
      by_cases hss : s.socket = t.socket
      · simp [jsStrNe, jsStrEq, hss]
      · simp [jsStrNe, jsStrEq, hss, obs]

theorem formFactor_seg_obs (build : Build) (components : List Component)
    (hmb : ∀ comp, resolveSlot build.motherboard components = some comp →
      ∃ s, comp.specs = ComponentSpecs.motherboard s)
    (hcase : ∀ comp, resolveSlot build.pcCase components = some comp →
      ∃ s, comp.specs = ComponentSpecs.pcCase s) :
    ∃ e3, monoFormFactorSeg (resolveSlot build.motherboard components)
        (resolveSlot build.pcCase components) = .ok e3 ∧
      e3.map obs =
        ((formFactorCompatibilityRule.check build components).toList).map obs := by
  rw [formFactorRule_check_eq]
  rcases hrm : resolveSlot build.motherboard components with _ | mbC
  · have hgm : getMotherboard build components = none := by
      rw [getMotherboard_eq_bind, hrm]; rfl
    rw [hgm]
    exact ⟨[], rfl, rfl⟩
  · obtain ⟨t, ht⟩ := hmb mbC hrm
    have hgm : getMotherboard build components = some (mbC, t) := by
      rw [getMotherboard_eq_bind, hrm, Option.some_bind', ht]
    rcases hrk : resolveSlot build.pcCase components with _ | kC
    · have hgk : getCase build components = none := by
        rw [getCase_eq_bind, hrk]; rfl
      rw [hgm, hgk]
      exact ⟨[], rfl, rfl⟩
    · obtain ⟨u, hu⟩ := hcase kC hrk
      have hgk : getCase build components = some (kC, u) := by
        rw [getCase_eq_bind, hrk, Option.some_bind', hu]
      rw [hgm, hgk]
      unfold monoFormFactorSeg
      dsimp only
      rw [ht, hu]
      simp only [ComponentSpecs.formFactorA, ComponentSpecs.formFactorCompatibilityA]
      refine ⟨_, rfl, ?_⟩
      by_cases hin : t.formFactor ∈ u.formFactorCompatibility
      · simp [jsIncludes, hin]
      · simp [jsIncludes, hin, obs]

theorem gpuLength_seg_obs (build : Build) (components : List Component)
    (hgpu : ∀ comp, resolveSlot build.gpu components = some comp →
      ∃ s, comp.specs = ComponentSpecs.gpu s)
    (hcase : ∀ comp, resolveSlot build.pcCase components = some comp →
      ∃ s, comp.specs = ComponentSpecs.pcCase s) :
    (monoGpuLenSeg (resolveSlot build.gpu components)
        (resolveSlot build.pcCase components)).map obs =
      ((gpuLengthCompatibilityRule.check build components).toList).map obs := by
  rw [gpuLengthRule_check_eq]
  rcases hrg : resolveSlot build.gpu components with _ | gC
  · have hg : getGPU build components = none := by
      rw [getGPU_eq_bind, hrg]; rfl
    rw [hg]
    rfl
  · obtain ⟨s, hs⟩ := hgpu gC hrg
    have hg : getGPU build components = some (gC, s) := by
      rw [getGPU_eq_bind, hrg, Option.some_bind', hs]
    rcases hrk : resolveSlot build.pcCase components with _ | kC
    · have hgk : getCase build components = none := by
        rw [getCase_eq_bind, hrk]; rfl
      rw [hg, hgk]
      rfl
    · obtain ⟨u, hu⟩ := hcase kC hrk
      have hgk : getCase build components = some (kC, u) := by
        rw [getCase_eq_bind, hrk, Option.some_bind', hu]
      rw [hg, hgk]
      unfold monoGpuLenSeg
      dsimp only
      rw [hs, hu]
      simp only [ComponentSpecs.lengthMmA, ComponentSpecs.maxGpuLengthMmA]
      by_cases hlen : s.lengthMm > u.maxGpuLengthMm
      · simp [jsGt, hlen, obs]
      · simp [jsGt, hlen]

theorem cooler_seg_obs (build : Build) (components : List Component)
    (hcpu : ∀ comp, resolveSlot build.cpu components = some comp →
      ∃ s, comp.specs = ComponentSpecs.cpu s)
    (hcool : ∀ comp, resolveSlot build.cooler components = some comp →
      ∃ s, comp.specs = ComponentSpecs.cooler s) :
    ∃ e7, monoCoolerSeg (resolveSlot build.cpu components)
        (resolveSlot build.cooler components) = .ok e7 ∧
      e7.map obs =
        ((coolerCompatibilityRule.check build components).toList).map obs := by
  rw [coolerRule_check_eq]
  rcases hrc : resolveSlot build.cpu components with _ | cpuC
  · have hg : getCPU build components = none := by
      rw [getCPU_eq_bind, hrc]; rfl
    rw [hg]
    exact ⟨[], rfl, rfl⟩
  · obtain ⟨s, hs⟩ := hcpu cpuC hrc
    have hg : getCPU build components = some (cpuC, s) := by
      rw [getCPU_eq_bind, hrc, Option.some_bind', hs]
    rcases hrk : resolveSlot build.cooler components with _ | kC
    · have hgk : getCooler build components = none := by
        rw [getCooler_eq_bind, hrk]; rfl
      rw [hg, hgk]
      exact ⟨[], rfl, rfl⟩
    · obtain ⟨u, hu⟩ := hcool kC hrk
      have hgk : getCooler build components = some (kC, u) := by
        rw [getCooler_eq_bind, hrk, Option.some_bind', hu]
      rw [hg, hgk]
      unfold monoCoolerSeg
      dsimp only
      rw [hs, hu]
      simp only [ComponentSpecs.socketA, ComponentSpecs.socketCompatibilityA]
      refine ⟨_, rfl, ?_⟩
      by_cases hin : s.socket ∈ u.socketCompatibility
      · simp [jsIncludes, hin]
      · simp [jsIncludes, hin, obs]

theorem filterMap_ram_map_fst (components : List Component) (ids : List String)
    (h : ∀ comp ∈ ids.filterMap
        (fun id => components.find? (fun c => c.id = id)),
      ∃ s, comp.specs = ComponentSpecs.ram s) :
    (ids.filterMap (fun id =>
      match components.find? (fun c => c.id = id) with
      | none => none
      | some c => match c.specs with
        | ComponentSpecs.ram s => some (c, s)
        | _ => none)).map Prod.fst =
    ids.filterMap (fun id => components.find? (fun c => c.id = id)) := by
  induction ids with
  | nil => rfl
  | cons id rest ih =>
    rcases hf : components.find? (fun c => c.id = id) with _ | c
    · simp only [List.filterMap_cons, hf]
      exact ih (fun comp hcomp => h comp (by
        simp only [List.filterMap_cons, hf]
        exact hcomp))
    · obtain ⟨s, hs⟩ := h c (by
        simp only [List.filterMap_cons, hf]
        exact List.mem_cons_self _ _)
      simp only [List.filterMap_cons, hf, hs]
      rw [List.map_cons]
      congr 1
      exact ih (fun comp hcomp => h comp (by
        simp only [List.filterMap_cons, hf]
        exact List.mem_cons_of_mem _ hcomp))

theorem getRAM_map_fst (build : Build) (components : List Component)
    (hram : ∀ comp ∈ resolveList build.ram components,
      ∃ s, comp.specs = ComponentSpecs.ram s) :
    (getRAM build components).map Prod.fst = resolveList build.ram components :=
  filterMap_ram_map_fst components build.ram hram

theorem filterMap_storage_map_fst (components : List Component)
    (ids : List String)
    (h : ∀ comp ∈ ids.filterMap
        (fun id => components.find? (fun c => c.id = id)),
      ∃ s, comp.specs = ComponentSpecs.storage s) :
    (ids.filterMap (fun id =>
      match components.find? (fun c => c.id = id) with
      | none => none
      | some c => match c.specs with
        | ComponentSpecs.storage s => some (c, s)
        | _ => none)).map Prod.fst =
    ids.filterMap (fun id => components.find? (fun c => c.id = id)) := by
  induction ids with
  | nil => rfl
  | cons id rest ih =>
    rcases hf : components.find? (fun c => c.id = id) with _ | c
    · simp only [List.filterMap_cons, hf]
      exact ih (fun comp hcomp => h comp (by
        simp only [List.filterMap_cons, hf]
        exact hcomp))
    · obtain ⟨s, hs⟩ := h c (by
        simp only [List.filterMap_cons, hf]
        exact List.mem_cons_self _ _)
      simp only [List.filterMap_cons, hf, hs]
      rw [List.map_cons]
      congr 1
      exact ih (fun comp hcomp => h comp (by
        simp only [List.filterMap_cons, hf]
        exact List.mem_cons_of_mem _ hcomp))

theorem getStorage_map_fst (build : Build) (components : List Component)
    (hsto : ∀ comp ∈ resolveList build.storage components,
      ∃ s, comp.specs = ComponentSpecs.storage s) :
    (getStorage build components).map Prod.fst =
      resolveList build.storage components :=
  filterMap_storage_map_fst components build.storage hsto

theorem filter_ramType (l : List (Component × RamSpecs)) (T : String)
    (htyped : ∀ p ∈ l, p.1.specs = ComponentSpecs.ram p.2) :
    (l.map Prod.fst).filter (fun r => jsStrNe r.specs.ramTypeA (some T)) =
      (l.filter (fun p => p.2.ramType ≠ T)).map Prod.fst := by
  induction l with
  | nil => rfl
  | cons p rest ih =>
    have hp := htyped p (List.mem_cons_self _ _)
    have ihr := ih (fun q hq => htyped q (List.mem_cons_of_mem _ hq))
    rw [List.map_cons, List.filter_cons, List.filter_cons]
    by_cases hT : p.2.ramType = T
    · simpa [hp, ComponentSpecs.ramTypeA, jsStrNe, jsStrEq, hT] using ihr
    · simpa [hp, ComponentSpecs.ramTypeA, jsStrNe, jsStrEq, hT] using ihr

theorem ramType_seg_obs (build : Build) (components : List Component)
    (hmb : ∀ comp, resolveSlot build.motherboard components = some comp →
      ∃ s, comp.specs = ComponentSpecs.motherboard s)
    (hram : ∀ comp ∈ resolveList build.ram components,
      ∃ s, comp.specs = ComponentSpecs.ram s) :
    (monoRamTypeSeg (resolveList build.ram components)
        (resolveSlot build.motherboard components)).map obs =
      ((ramTypeCompatibilityRule.check build components).toList).map obs := by
  rw [ramTypeRule_check_eq]
  rcases hrm : resolveSlot build.motherboard components with _ | mbC
  · have hgm : getMotherboard build components = none := by
      rw [getMotherboard_eq_bind, hrm]; rfl
    rw [hgm]
    rfl
  · obtain ⟨t, ht⟩ := hmb mbC hrm
    have hgm : getMotherboard build components = some (mbC, t) := by
      rw [getMotherboard_eq_bind, hrm, Option.some_bind', ht]
    have hmap := getRAM_map_fst build components hram
    have htyped := getRAM_mem_spec build components
    rw [hgm]
    unfold monoRamTypeSeg
    dsimp only
    rw [← hmap, ht,
      show (ComponentSpecs.motherboard t).ramTypeA = some t.ramType from rfl,
      filter_ramType _ _ htyped]
    simp only [List.length_map]
    by_cases h0 : (getRAM build components).length = 0
    · simp [h0]
    · rw [if_pos (Nat.pos_of_ne_zero h0), if_neg h0]
      by_cases hinc :
          0 < ((getRAM build components).filter
            (fun p => decide (p.2.ramType ≠ t.ramType))).length
      · rw [if_pos hinc, if_pos hinc]
        simp [obs, List.map_map, Function.comp]
      · rw [if_neg hinc, if_neg hinc]
        rfl

theorem ramSlots_seg_obs (build : Build) (components : List Component)
    (hmb : ∀ comp, resolveSlot build.motherboard components = some comp →
      ∃ s, comp.specs = ComponentSpecs.motherboard s)
    (hram : ∀ comp ∈ resolveList build.ram components,
      ∃ s, comp.specs = ComponentSpecs.ram s) :
    (monoRamSlotsSeg (resolveList build.ram components)
        (resolveSlot build.motherboard components)).map obs =
      ((ramSlotsRule.check build components).toList).map obs := by
  rw [ramSlotsRule_check_eq]
  rcases hrm : resolveSlot build.motherboard components with _ | mbC
  · have hgm : getMotherboard build components = none := by
      rw [getMotherboard_eq_bind, hrm]; rfl
    rw [hgm]
    rfl
  · obtain ⟨t, ht⟩ := hmb mbC hrm
    have hgm : getMotherboard build components = some (mbC, t) := by
      rw [getMotherboard_eq_bind, hrm, Option.some_bind', ht]
    have hmap := getRAM_map_fst build components hram
    rw [hgm]
    unfold monoRamSlotsSeg
    dsimp only
    rw [← hmap, ht,
      show (ComponentSpecs.motherboard t).ramSlotsA = some t.ramSlots from rfl]
    simp only [List.length_map]
    by_cases h0 : (getRAM build components).length = 0
    · simp [h0]
    · by_cases hslots :
          ((getRAM build components).length : ℚ) > t.ramSlots
      · simp [h0, Nat.pos_of_ne_zero h0, jsGt, hslots, obs, List.map_map,
          Function.comp]
      · simp [h0, Nat.pos_of_ne_zero h0, jsGt, hslots]

theorem getCPU_map_fst (build : Build) (components : List Component)
    (hcpu : ∀ comp, resolveSlot build.cpu components = some comp →
      ∃ s, comp.specs = ComponentSpecs.cpu s) :
    (getCPU build components).map Prod.fst = resolveSlot build.cpu components := by
  rcases hrc : resolveSlot build.cpu components with _ | comp
  · rw [getCPU_eq_bind, hrc]; rfl
  · obtain ⟨s, hs⟩ := hcpu comp hrc
    rw [getCPU_eq_bind, hrc, Option.some_bind', hs]
    rfl

theorem getGPU_map_fst (build : Build) (components : List Component)
    (hgpu : ∀ comp, resolveSlot build.gpu components = some comp →
      ∃ s, comp.specs = ComponentSpecs.gpu s) :
    (getGPU build components).map Prod.fst = resolveSlot build.gpu components := by
  rcases hrc : resolveSlot build.gpu components with _ | comp
  · rw [getGPU_eq_bind, hrc]; rfl
  · obtain ⟨s, hs⟩ := hgpu comp hrc
    rw [getGPU_eq_bind, hrc, Option.some_bind', hs]
    rfl

theorem getPSU_map_fst (build : Build) (components : List Component)
    (hpsu : ∀ comp, resolveSlot build.psu components = some comp →
      ∃ s, comp.specs = ComponentSpecs.psu s) :
    (getPSU build components).map Prod.fst = resolveSlot build.psu components := by
  rcases hrc : resolveSlot build.psu components with _ | comp
  · rw [getPSU_eq_bind, hrc]; rfl
  · obtain ⟨s, hs⟩ := hpsu comp hrc
    rw [getPSU_eq_bind, hrc, Option.some_bind', hs]
    rfl

theorem psu_seg_obs (build : Build) (components : List Component)
    (hcpu : ∀ comp, resolveSlot build.cpu components = some comp →
      ∃ s, comp.specs = ComponentSpecs.cpu s)
    (hgpu : ∀ comp, resolveSlot build.gpu components = some comp →
      ∃ s, comp.specs = ComponentSpecs.gpu s)
    (hpsu : ∀ comp, resolveSlot build.psu components = some comp →
      ∃ s, comp.specs = ComponentSpecs.psu s)
    (hram : ∀ comp ∈ resolveList build.ram components,
      ∃ s, comp.specs = ComponentSpecs.ram s)
    (hsto : ∀ comp ∈ resolveList build.storage components,
      ∃ s, comp.specs = ComponentSpecs.storage s) :
    ((monoPsuSeg (resolveSlot build.cpu components)
        (resolveSlot build.gpu components) (resolveList build.ram components)
        (resolveList build.storage components)
        (resolveSlot build.psu components)).1).map obs =
      (((psuWattageRule.check build components).toList).filter
        (fun r => r.severity = Severity.error)).map obs
    ∧ ((monoPsuSeg (resolveSlot build.cpu components)
        (resolveSlot build.gpu components) (resolveList build.ram components)
        (resolveList build.storage components)
        (resolveSlot build.psu components)).2).map obs =
      (((psuWattageRule.check build components).toList).filter
        (fun r => r.severity = Severity.warning)).map obs := by
  rw [psuWattageRule_check_eq]
  unfold monoPsuSeg
  rw [← getCPU_map_fst build components hcpu, ← getGPU_map_fst build components hgpu,
    ← getPSU_map_fst build components hpsu,
    ← getRAM_map_fst build components hram,
    ← getStorage_map_fst build components hsto]
  simp only [List.length_map]
  by_cases hreg : getCPU build components = none ∧ getGPU build components = none ∧
      (getRAM build components).length = 0 ∧ (getStorage build components).length = 0
  · rw [if_pos hreg]
    rw [if_neg (by
      obtain ⟨h1, h2, h3, h4⟩ := hreg
      rw [h1, h2]
      simp [h3, h4])]
    exact ⟨rfl, rfl⟩
  · have hmono : ((getCPU build components).map Prod.fst).isSome = true ∨
        ((getGPU build components).map Prod.fst).isSome = true ∨
        (getRAM build components).length > 0 ∨
        (getStorage build components).length > 0 := by
      rcases not_and_or.mp hreg with h | h23
      · left
        rcases hc2 : getCPU build components with _ | cp
        · exact absurd hc2 h
        · rfl
      · rcases not_and_or.mp h23 with h | h34
        · right; left
          rcases hg2 : getGPU build components with _ | gp
          · exact absurd hg2 h
          · rfl
        · rcases not_and_or.mp h34 with h | h4
          · right; right; left; omega
          · right; right; right; omega
    rw [if_neg hreg, if_pos hmono]
    have hEst : calculateEstimatedWattU ((getCPU build components).map Prod.fst)
        ((getGPU build components).map Prod.fst)
        ((getRAM build components).map Prod.fst)
        ((getStorage build components).map Prod.fst) =
        some (calculateEstimatedWatt (getCPU build components)
          (getGPU build components) (getRAM build components)
          (getStorage build components)) := by
      unfold calculateEstimatedWattU calculateEstimatedWatt
      rcases hc2 : getCPU build components with _ | cp <;>
        rcases hg2 : getGPU build components with _ | gp
      · simp only [Option.map_none', List.length_map, jsAdd]
        congr 1
        ring
      · have hsg := getGPU_some_spec build components gp hg2
        simp only [Option.map_none', Option.map_some', List.length_map, hsg,
          ComponentSpecs.tdpWA, jsAdd]
        congr 1
        ring
      · have hsc := getCPU_some_spec build components cp hc2
        simp only [Option.map_none', Option.map_some', List.length_map, hsc,
          ComponentSpecs.tdpWA, jsAdd]
        congr 1
        ring
      · have hsc := getCPU_some_spec build components cp hc2
        have hsg := getGPU_some_spec build components gp hg2
        simp only [Option.map_some', List.length_map, hsc, hsg,
          ComponentSpecs.tdpWA, jsAdd]
    rw [hEst]
    rcases hp2 : getPSU build components with _ | pp
    · exact ⟨rfl, rfl⟩
    · have hsp := getPSU_some_spec build components pp hp2
      simp only [Option.map_some']
      rw [hsp]
      simp only [ComponentSpecs.wattageA, jsMul, jsLt, Option.map_some']
      by_cases h125 : pp.2.wattage <
          calculateEstimatedWatt (getCPU build components)
            (getGPU build components) (getRAM build components)
            (getStorage build components) * 1.25
      · simp [h125, obs]
      · by_cases h15 : pp.2.wattage <
            calculateEstimatedWatt (getCPU build components)
              (getGPU build components) (getRAM build components)
              (getStorage build components) * 1.5
        · simp [h125, h15, obs]
        · simp [h125, h15]

def cexCPUSpec : CpuSpecs :=
  { socket := "AM4", cores := 8, threads := 16, baseClock := 3, boostClock := 4,
    tdpW := 65 }

def cexCPU : Component :=
  { id := "cpu-a", type := .cpu, brand := "A", model := "C",
    specs := .cpu cexCPUSpec }

def cexMBSpec : MotherboardSpecs :=
  { socket := "LGA1700", formFactor := "ATX", ramSlots := 4, ramType := "DDR4",
    maxRamGB := 128, chipset := "Z", pcieSlots := 2 }

def cexMB : Component :=
  { id := "mb-a", type := .motherboard, brand := "A", model := "M",
    specs := .motherboard cexMBSpec }

def cexBuild : Build :=
  { cpu := some "cpu-a", motherboard := some "mb-a", meta := { target := .mixed } }

def cexCatalog : List Component := [cexCPU, cexMB]

def regSocketMismatch : RuleResult :=
  { code := "cpu-socket-mismatch", severity := .error,
    message := "CPU socket AM4 ≠ MB socket LGA1700",
    reason := "Physical incompatibility - CPU and motherboard must have compatible sockets",
    affectedIds := ["cpu-a", "mb-a"] }

def monoSocketMismatch : RuleResult :=
  { code := "cpu-socket-mismatch", severity := .error,
    message := "CPU socket AM4 does not match motherboard socket LGA1700",
    reason := "CPU and motherboard must have compatible sockets for installation",
    affectedIds := ["cpu-a", "mb-a"] }

/-- Counterexample to C10: on a CPU/motherboard socket mismatch the two
implementations return findings with different `message`/`reason` texts, so
the sequences are not equal. -/
theorem registry_vs_mono_not_identical_cex :
    checkCompatibility cexBuild cexCatalog = [regSocketMismatch] ∧
    checkCompatibilityMono cexBuild cexCatalog =
      Except.ok [monoSocketMismatch] ∧
    regSocketMismatch ≠ monoSocketMismatch :=
  ⟨rfl, rfl, by decide⟩

/-- C10 (amended). On any build and catalog whose resolved components all
carry the specs variant their slot expects, the monolithic implementation
succeeds and its findings agree with the registry-based implementation's on
code, severity and affected ids — after splitting the registry output into
errors-then-warnings order (the monolith appends its one possible warning
last, while the registry emits it in priority position; message and reason
strings still differ for the socket and RAM-type rules). -/
theorem registry_mono_observational_equiv (build : Build)
    (components : List Component)
    (hcpu : ∀ comp, resolveSlot build.cpu components = some comp →
      ∃ s, comp.specs = ComponentSpecs.cpu s)
    (hgpu : ∀ comp, resolveSlot build.gpu components = some comp →
      ∃ s, comp.specs = ComponentSpecs.gpu s)
    (hmb : ∀ comp, resolveSlot build.motherboard components = some comp →
      ∃ s, comp.specs = ComponentSpecs.motherboard s)
    (hcool : ∀ comp, resolveSlot build.cooler components = some comp →
      ∃ s, comp.specs = ComponentSpecs.cooler s)
    (hcase : ∀ comp, resolveSlot build.pcCase components = some comp →
      ∃ s, comp.specs = ComponentSpecs.pcCase s)
    (hpsu : ∀ comp, resolveSlot build.psu components = some comp →
      ∃ s, comp.specs = ComponentSpecs.psu s)
    (hram : ∀ comp ∈ resolveList build.ram components,
      ∃ s, comp.specs = ComponentSpecs.ram s)
    (hsto : ∀ comp ∈ resolveList build.storage components,
      ∃ s, comp.specs = ComponentSpecs.storage s) :
    ∃ rs, checkCompatibilityMono build components = Except.ok rs ∧
      rs.map obs =
        ((checkCompatibility build components).filter
          (fun r => r.severity = Severity.error)).map obs ++
        ((checkCompatibility build components).filter
          (fun r => r.severity = Severity.warning)).map obs := by
  obtain ⟨e3, he3, he3obs⟩ := formFactor_seg_obs build components hmb hcase
  obtain ⟨e7, he7, he7obs⟩ := cooler_seg_obs build components hcpu hcool
  have h1 := socket_seg_obs build components hcpu hmb
  have h2 := ramType_seg_obs build components hmb hram
  have h4 := gpuLength_seg_obs build components hgpu hcase
  obtain ⟨h5a, h5b⟩ := psu_seg_obs build components hcpu hgpu hpsu hram hsto
  have h6 := ramSlots_seg_obs build components hmb hram
  have hmono : checkCompatibilityMono build components = Except.ok
      (monoSocketSeg (resolveSlot build.cpu components)
        (resolveSlot build.motherboard components) ++
       monoRamTypeSeg (resolveList build.ram components)
        (resolveSlot build.motherboard components) ++
       e3 ++
       monoGpuLenSeg (resolveSlot build.gpu components)
        (resolveSlot build.pcCase components) ++
       (monoPsuSeg (resolveSlot build.cpu components)
        (resolveSlot build.gpu components) (resolveList build.ram components)
        (resolveList build.storage components)
        (resolveSlot build.psu components)).1 ++
       monoRamSlotsSeg (resolveList build.ram components)
        (resolveSlot build.motherboard components) ++
       e7 ++
       (monoPsuSeg (resolveSlot build.cpu components)
        (resolveSlot build.gpu components) (resolveList build.ram components)
        (resolveList build.storage components)
        (resolveSlot build.psu components)).2) := by
    unfold checkCompatibilityMono
    dsimp only
    rw [he3, he7]
    simp [bind, Except.bind, pure, Except.pure]
  refine ⟨_, hmono, ?_⟩
  have ht1e : ((socketCompatibilityRule.check build components).toList).filter
      (fun r => r.severity = Severity.error) =
      (socketCompatibilityRule.check build components).toList :=
    List.filter_eq_self.mpr (fun r hr => by
      simp [socketRule_all_error build components r hr])
  have ht1w : ((socketCompatibilityRule.check build components).toList).filter
      (fun r => r.severity = Severity.warning) = [] :=
    List.filter_eq_nil_iff.mpr (fun r hr => by
      simp [socketRule_all_error build components r hr])
  have ht2e : ((ramTypeCompatibilityRule.check build components).toList).filter
      (fun r => r.severity = Severity.error) =
      (ramTypeCompatibilityRule.check build components).toList :=
    List.filter_eq_self.mpr (fun r hr => by
      simp [ramTypeRule_all_error build components r hr])
  have ht2w : ((ramTypeCompatibilityRule.check build components).toList).filter
      (fun r => r.severity = Severity.warning) = [] :=
    List.filter_eq_nil_iff.mpr (fun r hr => by
      simp [ramTypeRule_all_error build components r hr])
  have ht3e : ((formFactorCompatibilityRule.check build components).toList).filter
      (fun r => r.severity = Severity.error) =
      (formFactorCompatibilityRule.check build components).toList :=
    List.filter_eq_self.mpr (fun r hr => by
      simp [formFactorRule_all_error build components r hr])
  have ht3w : ((formFactorCompatibilityRule.check build components).toList).filter
      (fun r => r.severity = Severity.warning) = [] :=
    List.filter_eq_nil_iff.mpr (fun r hr => by
      simp [formFactorRule_all_error build components r hr])
  have ht4e : ((gpuLengthCompatibilityRule.check build components).toList).filter
      (fun r => r.severity = Severity.error) =
      (gpuLengthCompatibilityRule.check build components).toList :=
    List.filter_eq_self.mpr (fun r hr => by
      simp [gpuLengthRule_all_error build components r hr])
  have ht4w : ((gpuLengthCompatibilityRule.check build components).toList).filter
      (fun r => r.severity = Severity.warning) = [] :=
    List.filter_eq_nil_iff.mpr (fun r hr => by
      simp [gpuLengthRule_all_error build components r hr])
  have ht6e : ((ramSlotsRule.check build components).toList).filter
      (fun r => r.severity = Severity.error) =
      (ramSlotsRule.check build components).toList :=
    List.filter_eq_self.mpr (fun r hr => by
      simp [ramSlotsRule_all_error build components r hr])
  have ht6w : ((ramSlotsRule.check build components).toList).filter
      (fun r => r.severity = Severity.warning) = [] :=
    List.filter_eq_nil_iff.mpr (fun r hr => by
      simp [ramSlotsRule_all_error build components r hr])
  have ht7e : ((coolerCompatibilityRule.check build components).toList).filter
      (fun r => r.severity = Severity.error) =
      (coolerCompatibilityRule.check build components).toList :=
    List.filter_eq_self.mpr (fun r hr => by
      simp [coolerRule_all_error build components r hr])
  have ht7w : ((coolerCompatibilityRule.check build components).toList).filter
      (fun r => r.severity = Severity.warning) = [] :=
    List.filter_eq_nil_iff.mpr (fun r hr => by
      simp [coolerRule_all_error build components r hr])
  rw [checkCompatibility_eq]
  simp only [List.map_append, List.filter_append, ht1e, ht1w, ht2e, ht2w,
    ht3e, ht3w, ht4e, ht4w, ht6e, ht6w, ht7e, ht7w, List.append_nil,
    List.nil_append, h1, h2, he3obs, h4, h5a, h5b, h6, he7obs,
    List.append_assoc]

/-- Witness for the amended C10 at the concrete socket-mismatch input. -/
theorem registry_mono_observational_equiv_witness :
    ∃ rs, checkCompatibilityMono cexBuild cexCatalog = Except.ok rs ∧
      rs.map obs =
        ((checkCompatibility cexBuild cexCatalog).filter
          (fun r => r.severity = Severity.error)).map obs ++
        ((checkCompatibility cexBuild cexCatalog).filter
          (fun r => r.severity = Severity.warning)).map obs := by
  apply registry_mono_observational_equiv
  · intro comp h
    rw [show resolveSlot cexBuild.cpu cexCatalog = some cexCPU from rfl] at h
    injection h with h
    exact ⟨cexCPUSpec, by rw [← h]; rfl⟩
  · intro comp h
    rw [show resolveSlot cexBuild.gpu cexCatalog = none from rfl] at h
    exact Option.noConfusion h
  · intro comp h
    rw [show resolveSlot cexBuild.motherboard cexCatalog = some cexMB from rfl] at h
    injection h with h
    exact ⟨cexMBSpec, by rw [← h]; rfl⟩
  · intro comp h
    rw [show resolveSlot cexBuild.cooler cexCatalog = none from rfl] at h
    exact Option.noConfusion h
  · intro comp h
    rw [show resolveSlot cexBuild.pcCase cexCatalog = none from rfl] at h
    exact Option.noConfusion h
  · intro comp h
    rw [show resolveSlot cexBuild.psu cexCatalog = none from rfl] at h
    exact Option.noConfusion h
  · intro comp h
    simp [show resolveList cexBuild.ram cexCatalog = [] from rfl] at h
  · intro comp h
    simp [show resolveList cexBuild.storage cexCatalog = [] from rfl] at h

end HelixCFG
